import Mathlib

/-!
# libwebsockets `lib/server.c`: server-side servicing, shallow embedding

The C functions of `lib/server.c` are embedded as pure Lean functions.

* Every call into a collaborator that lives outside `server.c` (sockets, TLS
  library, parser, user callbacks, poll bookkeeping, timeouts, file I/O) is
  recorded, in program order, as one `Ev` in a trace.  The value such a call
  returns is read from an `Env`, which is universally quantified in the
  theorems.  On every path through a function each collaborator is called at
  most once per distinct argument list, so a fixed `Env` loses no generality.
* Field assignments that `server.c` itself makes to a `struct libwebsocket`
  are applied to the `Wsi` record that the function returns.  What a
  collaborator does internally is not part of `server.c` and is visible only
  as its event.
* `lwsl_*` logging and side-effect-free queries (`SSL_get_error`,
  `ERR_error_string`, `strerror`, `ntohs`, `strlen`) emit no event; every
  `lwsl_*` call but the one at line 615 has a literal format.
* `context->service_buffer` has the fixed size `Env.sizeof_service_buffer`.
  A `sprintf` or `memcpy` whose bytes (with the terminating NUL of `sprintf`)
  do not fit writes past the buffer in C; the embedded function then has no
  result (`none`).  The same holds when `lwsl_info` is given the formatted
  response as its format and that text contains a conversion.  The buffer is
  taken to hold at least the fixed 404 response of the missing-file path
  (96 bytes and its NUL).
* Preprocessor switches (`LWS_OPENSSL_SUPPORT`, `USE_CYASSL`, `LWS_USE_LIBEV`)
  and the `LWS_*` constants of the private header are fields of `Env`;
  `SSL_ERROR_WANT_READ` and `SSL_ERROR_WANT_WRITE` have their TLS library
  values.
-/

namespace Lws

/-! ## Data model -/

/-- Values of `wsi->mode` that `server.c` distinguishes; `OTHER` stands for
every remaining connection mode (the `default:` label). -/
inductive ConnMode where
  | HTTP_SERVING
  | HTTP_SERVING_ACCEPTED
  | SERVER_LISTENER
  | SSL_ACK_PENDING
  | OTHER
  deriving DecidableEq, Repr

/-- Values of `wsi->state` that `server.c` distinguishes. -/
inductive WsiState where
  | HTTP
  | HTTP_ISSUING_FILE
  | OTHER
  deriving DecidableEq, Repr

/-- Timeout reasons used by `server.c`. -/
inductive PendingTimeout where
  | NO_PENDING_TIMEOUT
  | ESTABLISH_WITH_SERVER
  | SSL_ACCEPT
  deriving DecidableEq, Repr

/-- Callback reasons used by `server.c`. -/
inductive CallbackReason where
  | WSI_CREATE
  | FILTER_NETWORK_CONNECTION
  | SERVER_NEW_CLIENT_INSTANTIATED
  | HTTP_WRITEABLE
  deriving DecidableEq, Repr

/-- Which connection record a call is made on: the record being serviced
(`wsi`) or the one created by the accept path (`new_wsi`). -/
inductive Who where
  | wsi
  | new_wsi
  deriving DecidableEq, Repr

/-- The two libev watchers of a connection. -/
inductive Watcher where
  | w_read
  | w_write
  deriving DecidableEq, Repr

/-- The fields of `struct libwebsocket` that `server.c` reads or writes.
Pointers are `Option`s (`none` is `NULL`). -/
structure Wsi where
  sock : Int
  mode : ConnMode
  state : WsiState
  hdr_parsing_completed : Bool
  pending_timeout : PendingTimeout
  ssl : Option Nat
  use_ssl : Bool
  truncated_send_malloc : Option (List Nat)
  truncated_send_offset : Nat
  truncated_send_len : Nat
  protocol : Option Nat
  user_space : Option Nat
  ietf_spec_revision : Nat
  http_fd : Int
  http_filelen : Nat
  http_filepos : Nat
  deriving DecidableEq, Repr

/-- The `struct libwebsocket_pollfd` handed to the service function. -/
structure Pollfd where
  fd : Int
  revents : Nat
  deriving DecidableEq, Repr

/-- One call from `server.c` into a collaborator. -/
inductive Ev where
  | lws_issue_raw (who : Who) (buf : List Nat) (len : Nat)
  | recv (fd : Int) (peek : Bool)
  | SSL_read (ssl : Option Nat)
  | free_ah (who : Who)
  | libwebsocket_close_and_free_session (who : Who)
  | libwebsocket_read (who : Who) (buf : List Nat) (len : Int)
  | lws_change_pollfd (who : Who) (clear set : Nat)
  | ev_io_stop (who : Who) (w : Watcher)
  | ev_io_start (who : Who) (w : Watcher)
  | ev_io_init (who : Who) (w : Watcher) (fd : Int)
  | user_callback_handle_rxflow (who : Who) (reason : CallbackReason)
  | libwebsockets_serve_http_file_fragment (who : Who)
  | lws_latency_pre (who : Who)
  | lws_latency (who : Who)
  | accept (fd : Int)
  | lws_plat_set_socket_options (fd : Int)
  | callback (who : Who) (reason : CallbackReason) (arg : Option Int)
  | compatible_close (fd : Int)
  | malloc_wsi
  | lws_allocate_header_table
  | free_wsi
  | libwebsocket_set_timeout (who : Who) (reason : PendingTimeout)
  | insert_wsi_socket_into_fds (who : Who)
  | SSL_new
  | decode_ssl_error
  | SSL_set_ex_data (ssl : Option Nat)
  | SSL_set_fd (ssl : Option Nat) (fd : Int)
  | SSL_set_mode (ssl : Option Nat)
  | CyaSSL_set_using_nonblock (ssl : Option Nat)
  | SSL_get_rbio (ssl : Option Nat)
  | SSL_get_wbio (ssl : Option Nat)
  | BIO_set_nbio (w : Watcher)
  | SSL_shutdown (ssl : Option Nat)
  | SSL_free (ssl : Option Nat)
  | SSL_accept (ssl : Option Nat)
  | libwebsocket_write (buf : String) (len : Nat)
  | lws_plat_open_file (file : String)
  deriving DecidableEq, Repr

/-- Build switches, header constants, context configuration and the values
returned by collaborators. -/
structure Env where
  /-- `LWS_OPENSSL_SUPPORT` is defined. -/
  LWS_OPENSSL_SUPPORT : Bool
  /-- `USE_CYASSL` is defined. -/
  USE_CYASSL : Bool
  /-- `LWS_USE_LIBEV` is defined and `LWS_LIBEV_ENABLED(context)` holds. -/
  LWS_LIBEV_ENABLED : Bool
  LWS_POLLIN : Nat
  LWS_POLLOUT : Nat
  LWS_EINTR : Int
  LWS_EAGAIN : Int
  LWS_INVALID_FILE : Int
  /-- `sizeof(context->service_buffer)`. -/
  sizeof_service_buffer : Nat
  /-- The buffer holds the fixed 404 response (96 bytes) and its NUL. -/
  service_buffer_min : 96 < sizeof_service_buffer
  /-- `lwsl_info` is compiled in and the INFO level is enabled, so the call
  formats its first argument. -/
  lwsl_info_enabled : Bool
  /-- `context->use_ssl`. -/
  use_ssl : Bool
  /-- `context->allow_non_ssl_on_ssl_port`. -/
  allow_non_ssl_on_ssl_port : Bool
  /-- `context->protocols`. -/
  protocols : Option Nat
  /-- Result of the `recv` / `SSL_read` of the HTTP read path. -/
  read_len : Int
  /-- `LWS_ERRNO` after that read. -/
  read_errno : Int
  /-- Contents of `context->service_buffer` after that read. -/
  service_buffer : List Nat
  /-- Result of the `MSG_PEEK` `recv`. -/
  peek_len : Int
  /-- `context->service_buffer[0]` after the peek. -/
  peek_byte : Nat
  libwebsocket_read : Int
  lws_change_pollfd : Who → Nat → Nat → Int
  user_callback_handle_rxflow : Int
  libwebsockets_serve_http_file_fragment : Int
  accept : Int
  callback : CallbackReason → Int
  /-- `malloc` of a `struct libwebsocket` returned non-`NULL`. -/
  malloc_ok : Bool
  lws_allocate_header_table : Int
  SSL_new : Option Nat
  rbio : Bool
  wbio : Bool
  SSL_accept : Int
  SSL_get_error : Int
  libwebsocket_write : String → Nat → Int
  /-- Descriptor returned by `lws_plat_open_file`. -/
  open_fd : String → Int
  /-- Length stored through its second argument (`none`: left untouched). -/
  open_filelen : String → Option Nat

/-- Value of `SSL_ERROR_WANT_READ` in the TLS library headers. -/
def SSL_ERROR_WANT_READ : Int := 2

/-- Value of `SSL_ERROR_WANT_WRITE` in the TLS library headers. -/
def SSL_ERROR_WANT_WRITE : Int := 3

/-- Modelled from the spec: the enum constant `HTTP_STATUS_NOT_FOUND` of the
public header, which is not under `src/`; the spec gives file-not-found as 404. -/
def HTTP_STATUS_NOT_FOUND : Nat := 404

/-! ## Status and file response helpers (`server.c` lines 553-680) -/

/-- The table `err400[]`. -/
def err400 : List String :=
  [ "Bad Request",
    "Unauthorized",
    "Payment Required",
    "Forbidden",
    "Not Found",
    "Method Not Allowed",
    "Not Acceptable",
    "Proxy Auth Required",
    "Request Timeout",
    "Conflict",
    "Gone",
    "Length Required",
    "Precondition Failed",
    "Request Entity Too Large",
    "Request URI too Long",
    "Unsupported Media Type",
    "Requested Range Not Satisfiable",
    "Expectation Failed" ]

/-- The table `err500[]`. -/
def err500 : List String :=
  [ "Internal Server Error",
    "Not Implemented",
    "Bad Gateway",
    "Service Unavailable",
    "Gateway Timeout",
    "HTTP Version Not Supported" ]

/-- `ARRAY_SIZE(x)`: number of elements of a static array. -/
def ARRAY_SIZE (x : List String) : Nat := x.length

/-- Conversion `%u` / `%lu` of `sprintf`: unsigned decimal. -/
def fmt_u (n : Nat) : String := Nat.repr n

/-- The two table look-ups of `libwebsockets_return_http_status`, in source
order.  An array read outside its table yields `none`. -/
def status_description (code : Nat) : Option String :=
  let description : Option String := some ""
  let description :=
    if code ≥ 400 ∧ code < 400 + ARRAY_SIZE err400 then err400.get? (code - 400)
    else description
  let description :=
    if code ≥ 500 ∧ code < 500 + ARRAY_SIZE err500 then err500.get? (code - 500)
    else description
  description

/-- The text that the `sprintf` of `libwebsockets_return_http_status`
formats. -/
def status_sprintf (code : Nat) (description html_body : String) : String :=
  "HTTP/1.0 " ++ fmt_u code ++ " " ++ description ++ "\x0d\x0a" ++
  "Server: libwebsockets\x0d\x0a" ++
  "Content-Type: text/html\x0d\x0a\x0d\x0a" ++
  "<h1>" ++ fmt_u code ++ " " ++ description ++ "</h1>" ++ html_body

/-- A call `sprintf(buf + off, ...)` that formats `text` into a buffer of
`cap` bytes: the text and its terminating NUL are stored from offset `off`
and the byte count of the text is returned; `none` when they do not fit (the
C call has no bound and writes past the buffer). -/
def sprintf_at (cap off : Nat) (text : String) : Option Nat :=
  if off + text.utf8ByteSize + 1 ≤ cap then some text.utf8ByteSize else none

/-- A call `memcpy(buf + off, src, n)` into a buffer of `cap` bytes: `none`
when the `n` bytes do not fit. -/
def memcpy_at (cap off n : Nat) : Option Nat :=
  if off + n ≤ cap then some n else none

/-- A `printf` format that consumes no argument: every `%` is doubled. -/
def format_takes_no_argument : List Char → Bool
  | [] => true
  | '%' :: '%' :: rest => format_takes_no_argument rest
  | '%' :: _ => false
  | _ :: rest => format_takes_no_argument rest

/-- `libwebsockets_return_http_status`: the value returned and the trace.
There is no result (`none`) when a table would be read out of bounds, when
the `sprintf` does not fit `context->service_buffer`, or when
`lwsl_info((const char *)context->service_buffer)` formats a buffer that
contains a conversion (it is called without arguments). -/
def libwebsockets_return_http_status (env : Env) (code : Nat)
    (html_body : Option String) : Option (Int × List Ev) :=
  let html_body := match html_body with
    | none => ""
    | some b => b
  match status_description code with
  | none => none
  | some description =>
    let buf := status_sprintf code description html_body
    match sprintf_at env.sizeof_service_buffer 0 buf with
    | none => none
    | some n =>
      if env.lwsl_info_enabled = true ∧ format_takes_no_argument buf.toList = false then
        none
      else
        let m := env.libwebsocket_write buf n
        some (m, [Ev.libwebsocket_write buf n])

/-- The contents of `context->service_buffer` after the first `sprintf`, the
optional `memcpy` of `other_headers` and the second `sprintf` of
`libwebsockets_serve_http_file`, when all three fit. -/
def file_header (content_type : String) (other_headers : Option String)
    (filelen : Nat) : String :=
  let p := "HTTP/1.0 200 OK\x0d\x0aServer: libwebsockets\x0d\x0a" ++
    "Content-Type: " ++ content_type ++ "\x0d\x0a"
  let p := match other_headers with
    | some h => p ++ h
    | none => p
  p ++ ("Content-Length: " ++ fmt_u filelen ++ "\x0d\x0a\x0d\x0a")

/-- Result of `libwebsockets_serve_http_file`. -/
structure FileResult where
  ret : Int
  wsi : Wsi
  trace : List Ev
  deriving DecidableEq, Repr

/-- `libwebsockets_serve_http_file`.  There is no result (`none`) when the
status helper has none or when one of the three writes into
`context->service_buffer` does not fit. -/
def libwebsockets_serve_http_file (env : Env) (wsi : Wsi) (file : String)
    (content_type : String) (other_headers : Option String) : Option FileResult :=
  let wsi := { wsi with
    http_fd := env.open_fd file,
    http_filelen := (env.open_filelen file).getD wsi.http_filelen }
  let t := [Ev.lws_plat_open_file file]
  if wsi.http_fd = env.LWS_INVALID_FILE then
    match libwebsockets_return_http_status env HTTP_STATUS_NOT_FOUND none with
    | none => none
    | some (_, t1) => some ⟨-1, wsi, t ++ t1⟩
  else
    let cap := env.sizeof_service_buffer
    match sprintf_at cap 0
        ("HTTP/1.0 200 OK\x0d\x0aServer: libwebsockets\x0d\x0a" ++
          "Content-Type: " ++ content_type ++ "\x0d\x0a") with
    | none => none
    | some n1 =>
      let copied := match other_headers with
        | some h => memcpy_at cap n1 h.utf8ByteSize
        | none => some 0
      match copied with
      | none => none
      | some n2 =>
        match sprintf_at cap (n1 + n2)
            ("Content-Length: " ++ fmt_u wsi.http_filelen ++ "\x0d\x0a\x0d\x0a") with
        | none => none
        | some n3 =>
          let buf := file_header content_type other_headers wsi.http_filelen
          let len := n1 + n2 + n3
          let ret := env.libwebsocket_write buf len
          let t := t ++ [Ev.libwebsocket_write buf len]
          if ret ≠ (len : Int) then
            some ⟨-1, wsi, t⟩
          else
            let wsi := { wsi with http_filepos := 0, state := WsiState.HTTP_ISSUING_FILE }
            some ⟨env.libwebsockets_serve_http_file_fragment, wsi,
              t ++ [Ev.libwebsockets_serve_http_file_fragment Who.wsi]⟩

/-! ## Connection creation and servicing (`server.c` lines 146-550) -/

/-- `libwebsocket_create_new_server_wsi`: the new record (`none` is `NULL`)
and the trace.  The record is the zero-filled allocation with the fields the
function assigns. -/
def libwebsocket_create_new_server_wsi (env : Env) : Option Wsi × List Ev :=
  if env.malloc_ok = false then
    (none, [Ev.malloc_wsi])
  else
    let new_wsi : Wsi :=
      { sock := 0, ssl := none, use_ssl := false,
        truncated_send_malloc := none, truncated_send_offset := 0,
        truncated_send_len := 0, protocol := none, user_space := none,
        ietf_spec_revision := 0, http_fd := 0, http_filelen := 0,
        http_filepos := 0,
        pending_timeout := PendingTimeout.NO_PENDING_TIMEOUT,
        state := WsiState.HTTP,
        mode := ConnMode.HTTP_SERVING,
        hdr_parsing_completed := false }
    if env.lws_allocate_header_table ≠ 0 then
      (none, [Ev.malloc_wsi, Ev.lws_allocate_header_table, Ev.free_wsi])
    else
      let new_wsi := { new_wsi with
        protocol := env.protocols, user_space := none, ietf_spec_revision := 0 }
      (some new_wsi,
        [Ev.malloc_wsi, Ev.lws_allocate_header_table,
         Ev.callback Who.new_wsi CallbackReason.WSI_CREATE none])

/-- Result of one call of `lws_server_socket_service`: the return value, the
serviced record, the record created by the accept path (if one exists when the
call returns) and the trace. -/
structure Outcome where
  ret : Int
  wsi : Wsi
  new_wsi : Option Wsi
  trace : List Ev
  deriving DecidableEq, Repr

/-- The libev call guarded by `LWS_LIBEV_ENABLED(context)`. -/
def libev (env : Env) (evs : List Ev) : List Ev :=
  if env.LWS_LIBEV_ENABLED then evs else []

/-- The labels `accepted:` ... `break`, then `return 0`. -/
def accepted (who : Who) (w : Wsi) (t : List Ev) : Int × Wsi × List Ev :=
  (0, { w with mode := ConnMode.HTTP_SERVING },
    t ++ [Ev.libwebsocket_set_timeout who PendingTimeout.ESTABLISH_WITH_SERVER])

/-- The label `fail:`. -/
def fail (who : Who) (w : Wsi) (t : List Ev) : Int × Wsi × List Ev :=
  (1, w, t ++ [Ev.libwebsocket_close_and_free_session who])

/-- The `case LWS_CONNMODE_SSL_ACK_PENDING:` block, run on the record `w`
that the C variable `wsi` designates at that point. -/
def ssl_ack_pending (env : Env) (who : Who) (w : Wsi) : Int × Wsi × List Ev :=
  let t := [Ev.lws_change_pollfd who env.LWS_POLLOUT 0]
  if env.lws_change_pollfd who env.LWS_POLLOUT 0 ≠ 0 then
    fail who w t
  else
    let t := t ++ libev env [Ev.ev_io_stop who Watcher.w_write] ++
      [Ev.lws_latency_pre who, Ev.recv w.sock true]
    let n := env.peek_len
    if env.allow_non_ssl_on_ssl_port = true ∧ n ≥ 1 ∧ env.peek_byte % 256 ≥ 0x20 then
      let t := t ++ [Ev.SSL_shutdown w.ssl, Ev.SSL_free w.ssl]
      let w := { w with use_ssl := false, ssl := none }
      accepted who w t
    else
      let n := env.SSL_accept
      let t := t ++ [Ev.SSL_accept w.ssl, Ev.lws_latency who]
      if n ≠ 1 then
        let m := env.SSL_get_error
        if m = SSL_ERROR_WANT_READ then
          let t := t ++ [Ev.lws_change_pollfd who 0 env.LWS_POLLIN]
          if env.lws_change_pollfd who 0 env.LWS_POLLIN ≠ 0 then
            fail who w t
          else
            (0, w, t ++ libev env [Ev.ev_io_start who Watcher.w_read])
        else if m = SSL_ERROR_WANT_WRITE then
          let t := t ++ [Ev.lws_change_pollfd who 0 env.LWS_POLLOUT]
          if env.lws_change_pollfd who 0 env.LWS_POLLOUT ≠ 0 then
            fail who w t
          else
            (0, w, t ++ libev env [Ev.ev_io_start who Watcher.w_write])
        else
          (0, w, t ++ [Ev.libwebsocket_close_and_free_session who])
      else
        accepted who w t

/-- The `case LWS_CONNMODE_HTTP_SERVING:` /
`case LWS_CONNMODE_HTTP_SERVING_ACCEPTED:` block. -/
def http_serving (env : Env) (wsi : Wsi) (pollfd : Pollfd) : Outcome :=
  match wsi.truncated_send_malloc with
  | some buf =>
    if pollfd.revents &&& env.LWS_POLLOUT ≠ 0 then
      ⟨0, wsi, none,
        [Ev.lws_issue_raw Who.wsi (buf.drop wsi.truncated_send_offset)
          wsi.truncated_send_len]⟩
    else
      ⟨0, wsi, none, []⟩
  | none =>
    if pollfd.revents &&& env.LWS_POLLIN ≠ 0 then
      let len := env.read_len
      let t :=
        if env.LWS_OPENSSL_SUPPORT = true ∧ wsi.ssl ≠ none then [Ev.SSL_read wsi.ssl]
        else [Ev.recv pollfd.fd false]
      if len < 0 then
        if env.read_errno ≠ env.LWS_EINTR ∧ env.read_errno ≠ env.LWS_EAGAIN then
          ⟨0, wsi, none, t ++ [Ev.libwebsocket_close_and_free_session Who.wsi]⟩
        else
          ⟨0, wsi, none, t⟩
      else if len = 0 then
        let t := if wsi.hdr_parsing_completed = false then t ++ [Ev.free_ah Who.wsi] else t
        ⟨0, wsi, none, t ++ [Ev.libwebsocket_close_and_free_session Who.wsi]⟩
      else
        let n := env.libwebsocket_read
        let t := t ++ [Ev.libwebsocket_read Who.wsi env.service_buffer len]
        if n < 0 then
          ⟨0, wsi, none, t⟩
        else
          ⟨0, wsi, none, t⟩
    else if ¬ (pollfd.revents &&& env.LWS_POLLOUT ≠ 0) then
      ⟨0, wsi, none, []⟩
    else
      let t := [Ev.lws_change_pollfd Who.wsi env.LWS_POLLOUT 0]
      if env.lws_change_pollfd Who.wsi env.LWS_POLLOUT 0 ≠ 0 then
        let r := fail Who.wsi wsi t
        ⟨r.1, r.2.1, none, r.2.2⟩
      else
        let t := t ++ libev env [Ev.ev_io_stop Who.wsi Watcher.w_write]
        if wsi.state ≠ WsiState.HTTP_ISSUING_FILE then
          let n := env.user_callback_handle_rxflow
          let t := t ++ [Ev.user_callback_handle_rxflow Who.wsi CallbackReason.HTTP_WRITEABLE]
          if n < 0 then
            ⟨0, wsi, none, t ++ [Ev.libwebsocket_close_and_free_session Who.wsi]⟩
          else
            ⟨0, wsi, none, t⟩
        else
          let t := t ++ [Ev.libwebsockets_serve_http_file_fragment Who.wsi]
          if env.libwebsockets_serve_http_file_fragment ≠ 0 then
            ⟨0, wsi, none, t ++ [Ev.libwebsocket_close_and_free_session Who.wsi]⟩
          else
            ⟨0, wsi, none, t⟩

/-- The TLS session set-up between `SSL_new` and the fall-through
(`SSL_set_ex_data` ... `BIO_set_nbio`). -/
def ssl_session_setup (env : Env) (ssl : Option Nat) (accept_fd : Int) : List Ev :=
  [Ev.SSL_set_ex_data ssl, Ev.SSL_set_fd ssl accept_fd] ++
  (if env.USE_CYASSL then [Ev.CyaSSL_set_using_nonblock ssl]
   else
     [Ev.SSL_set_mode ssl, Ev.SSL_get_rbio ssl] ++
     (if env.rbio then [Ev.BIO_set_nbio Watcher.w_read] else []) ++
     [Ev.SSL_get_wbio ssl] ++
     (if env.wbio then [Ev.BIO_set_nbio Watcher.w_write] else []))

/-- The `case LWS_CONNMODE_SERVER_LISTENER:` block, including its
fall-through into the `SSL_ACK_PENDING` block. -/
def server_listener (env : Env) (wsi : Wsi) (pollfd : Pollfd) : Outcome :=
  if ¬ (pollfd.revents &&& env.LWS_POLLIN ≠ 0) then
    ⟨0, wsi, none, []⟩
  else
    let accept_fd := env.accept
    let t := [Ev.lws_latency_pre Who.wsi, Ev.accept pollfd.fd, Ev.lws_latency Who.wsi]
    if accept_fd < 0 then
      ⟨0, wsi, none, t⟩
    else
      let t := t ++ [Ev.lws_plat_set_socket_options accept_fd,
        Ev.callback Who.wsi CallbackReason.FILTER_NETWORK_CONNECTION (some accept_fd)]
      if env.callback CallbackReason.FILTER_NETWORK_CONNECTION ≠ 0 then
        ⟨0, wsi, none, t ++ [Ev.compatible_close accept_fd]⟩
      else
        match libwebsocket_create_new_server_wsi env with
        | (none, t1) => ⟨0, wsi, none, t ++ t1 ++ [Ev.compatible_close accept_fd]⟩
        | (some new_wsi, t1) =>
          let new_wsi := { new_wsi with sock := accept_fd }
          let t := t ++ t1 ++
            [Ev.libwebsocket_set_timeout Who.new_wsi PendingTimeout.ESTABLISH_WITH_SERVER,
             Ev.callback Who.new_wsi CallbackReason.SERVER_NEW_CLIENT_INSTANTIATED none] ++
            libev env [Ev.ev_io_init Who.new_wsi Watcher.w_read accept_fd,
                       Ev.ev_io_init Who.new_wsi Watcher.w_write accept_fd]
          if env.LWS_OPENSSL_SUPPORT = false then
            ⟨0, wsi, some new_wsi, t ++ [Ev.insert_wsi_socket_into_fds Who.new_wsi]⟩
          else
            let new_wsi := { new_wsi with ssl := none }
            if env.use_ssl = false then
              ⟨0, wsi, some new_wsi, t ++ [Ev.insert_wsi_socket_into_fds Who.new_wsi]⟩
            else
              let new_wsi := { new_wsi with ssl := env.SSL_new }
              let t := t ++ [Ev.SSL_new]
              if new_wsi.ssl = none then
                ⟨0, wsi, none,
                  t ++ [Ev.decode_ssl_error, Ev.free_wsi, Ev.compatible_close accept_fd]⟩
              else
                let t := t ++ ssl_session_setup env new_wsi.ssl accept_fd
                let new_wsi := { new_wsi with mode := ConnMode.SSL_ACK_PENDING }
                let t := t ++ [Ev.insert_wsi_socket_into_fds Who.new_wsi,
                  Ev.libwebsocket_set_timeout Who.new_wsi PendingTimeout.SSL_ACCEPT]
                let r := ssl_ack_pending env Who.new_wsi new_wsi
                ⟨r.1, wsi, some r.2.1, t ++ r.2.2⟩

/-- `lws_server_socket_service`: the `switch (wsi->mode)`. -/
def lws_server_socket_service (env : Env) (wsi : Wsi) (pollfd : Pollfd) : Outcome :=
  match wsi.mode with
  | ConnMode.HTTP_SERVING => http_serving env wsi pollfd
  | ConnMode.HTTP_SERVING_ACCEPTED => http_serving env wsi pollfd
  | ConnMode.SERVER_LISTENER => server_listener env wsi pollfd
  | ConnMode.SSL_ACK_PENDING =>
    if env.LWS_OPENSSL_SUPPORT = true then
      let r := ssl_ack_pending env Who.wsi wsi
      ⟨r.1, r.2.1, none, r.2.2⟩
    else
      ⟨0, wsi, none, []⟩
  | ConnMode.OTHER => ⟨0, wsi, none, []⟩

/-! ## Vocabulary of the statements: kinds of calls, trace segments -/

/-- Socket or TLS reads (including the peek). -/
def Ev.is_read : Ev → Bool
  | Ev.recv _ _ => true
  | Ev.SSL_read _ => true
  | _ => false

/-- Calls of the parser `libwebsocket_read`. -/
def Ev.is_parser_call : Ev → Bool
  | Ev.libwebsocket_read _ _ _ => true
  | _ => false

/-- User callbacks, direct or through `user_callback_handle_rxflow`. -/
def Ev.is_user_callback : Ev → Bool
  | Ev.callback _ _ _ => true
  | Ev.user_callback_handle_rxflow _ _ => true
  | _ => false

/-- Changes of poll interest or poll registration. -/
def Ev.is_poll_change : Ev → Bool
  | Ev.lws_change_pollfd _ _ _ => true
  | Ev.insert_wsi_socket_into_fds _ => true
  | Ev.ev_io_stop _ _ => true
  | Ev.ev_io_start _ _ => true
  | Ev.ev_io_init _ _ _ => true
  | _ => false

/-- Closes of a connection or of a raw descriptor. -/
def Ev.is_close : Ev → Bool
  | Ev.libwebsocket_close_and_free_session _ => true
  | Ev.compatible_close _ => true
  | _ => false

/-- Output towards the peer. -/
def Ev.is_write : Ev → Bool
  | Ev.lws_issue_raw _ _ _ => true
  | Ev.libwebsocket_write _ _ => true
  | Ev.libwebsockets_serve_http_file_fragment _ => true
  | _ => false

/-- Handshake steps. -/
def Ev.is_handshake_step : Ev → Bool
  | Ev.SSL_accept _ => true
  | _ => false

/-- Allocation of a TLS session. -/
def Ev.is_ssl_alloc : Ev → Bool
  | Ev.SSL_new => true
  | _ => false

/-- Arming of a timeout. -/
def Ev.is_set_timeout : Ev → Bool
  | Ev.libwebsocket_set_timeout _ _ => true
  | _ => false

/-- Allocations made for a new connection record. -/
def Ev.is_alloc : Ev → Bool
  | Ev.malloc_wsi => true
  | Ev.lws_allocate_header_table => true
  | Ev.SSL_new => true
  | _ => false

/-- The read call of the HTTP read path: `SSL_read` on a TLS connection of a
TLS build, `recv` otherwise. -/
def http_read_event (env : Env) (wsi : Wsi) (pollfd : Pollfd) : Ev :=
  if env.LWS_OPENSSL_SUPPORT = true ∧ wsi.ssl ≠ none then Ev.SSL_read wsi.ssl
  else Ev.recv pollfd.fd false

/-- The calls of the `SSL_ACK_PENDING` block up to and including the peek. -/
def ack_pending_head (env : Env) (who : Who) (w : Wsi) : List Ev :=
  [Ev.lws_change_pollfd who env.LWS_POLLOUT 0] ++
  libev env [Ev.ev_io_stop who Watcher.w_write] ++
  [Ev.lws_latency_pre who, Ev.recv w.sock true]

/-- The calls of the listener block up to and including the connection
filter. -/
def accept_head (env : Env) (pollfd : Pollfd) : List Ev :=
  [Ev.lws_latency_pre Who.wsi, Ev.accept pollfd.fd, Ev.lws_latency Who.wsi,
   Ev.lws_plat_set_socket_options env.accept,
   Ev.callback Who.wsi CallbackReason.FILTER_NETWORK_CONNECTION (some env.accept)]

/-- The record that `libwebsocket_create_new_server_wsi` returns on success,
with `sock` set to the accepted descriptor. -/
def admitted_wsi (env : Env) : Wsi :=
  { sock := env.accept, mode := ConnMode.HTTP_SERVING, state := WsiState.HTTP,
    hdr_parsing_completed := false,
    pending_timeout := PendingTimeout.NO_PENDING_TIMEOUT, ssl := none, use_ssl := false,
    truncated_send_malloc := none, truncated_send_offset := 0, truncated_send_len := 0,
    protocol := env.protocols, user_space := none, ietf_spec_revision := 0,
    http_fd := 0, http_filelen := 0, http_filepos := 0 }

/-- The calls of the listener block from `accept` up to the TLS branch, when
the filter admits the connection and the record is allocated. -/
def admission_head (env : Env) (pollfd : Pollfd) : List Ev :=
  accept_head env pollfd ++
  [Ev.malloc_wsi, Ev.lws_allocate_header_table,
   Ev.callback Who.new_wsi CallbackReason.WSI_CREATE none,
   Ev.libwebsocket_set_timeout Who.new_wsi PendingTimeout.ESTABLISH_WITH_SERVER,
   Ev.callback Who.new_wsi CallbackReason.SERVER_NEW_CLIENT_INSTANTIATED none] ++
  libev env [Ev.ev_io_init Who.new_wsi Watcher.w_read env.accept,
             Ev.ev_io_init Who.new_wsi Watcher.w_write env.accept]

/-! ## Sample inputs -/

/-- A TLS build on a platform with the usual constant values; every
collaborator succeeds, the peer has sent `GET /`. -/
def sample_env : Env :=
  { LWS_OPENSSL_SUPPORT := true
    USE_CYASSL := false
    LWS_LIBEV_ENABLED := false
    LWS_POLLIN := 1
    LWS_POLLOUT := 4
    LWS_EINTR := 4
    LWS_EAGAIN := 11
    LWS_INVALID_FILE := -1
    sizeof_service_buffer := 4096
    service_buffer_min := by decide
    lwsl_info_enabled := false
    use_ssl := true
    allow_non_ssl_on_ssl_port := true
    protocols := some 0
    read_len := 5
    read_errno := 0
    service_buffer := [71, 69, 84, 32, 47]
    peek_len := 5
    peek_byte := 71
    libwebsocket_read := 0
    lws_change_pollfd := fun _ _ _ => 0
    user_callback_handle_rxflow := 0
    libwebsockets_serve_http_file_fragment := 0
    accept := 9
    callback := fun _ => 0
    malloc_ok := true
    lws_allocate_header_table := 0
    SSL_new := some 1
    rbio := true
    wbio := true
    SSL_accept := 1
    SSL_get_error := 0
    libwebsocket_write := fun _ n => n
    open_fd := fun _ => 3
    open_filelen := fun _ => some 0 }

/-- An established cleartext connection in header-parsing state. -/
def sample_wsi : Wsi :=
  { sock := 7
    mode := ConnMode.HTTP_SERVING
    state := WsiState.HTTP
    hdr_parsing_completed := false
    pending_timeout := PendingTimeout.ESTABLISH_WITH_SERVER
    ssl := none
    use_ssl := false
    truncated_send_malloc := none
    truncated_send_offset := 0
    truncated_send_len := 0
    protocol := some 0
    user_space := none
    ietf_spec_revision := 0
    http_fd := 0
    http_filelen := 0
    http_filepos := 0 }

/-- The listener record of the samples. -/
def sample_listener : Wsi :=
  { sample_wsi with mode := ConnMode.SERVER_LISTENER }

/-- A TLS listener that allows cleartext fallback; the new connection has sent
nothing yet (the peek returns -1) and the handshake step wants more input. -/
def fallback_env : Env :=
  { sample_env with peek_len := -1, SSL_accept := -1, SSL_get_error := 2 }

/-- A text of 5000 bytes. -/
def long_text : String := String.mk (List.replicate 5000 'x')

/-- A build whose `lwsl_info` formats its argument. -/
def info_logging_env : Env :=
  { sample_env with lwsl_info_enabled := true }

/-! ## The responses as the specification words them -/

/-- The reason phrase as the specification words it: entry `c - 400` of the
4xx table for `400 ≤ c < 418`, entry `c - 500` of the 5xx table for
`500 ≤ c < 506`, empty otherwise. -/
def spec_reason (c : Nat) : String :=
  if 400 ≤ c ∧ c < 418 then err400.getD (c - 400) ""
  else if 500 ≤ c ∧ c < 506 then err500.getD (c - 500) ""
  else ""

/-- The decimal numeral of `n` as the specification means it: the base-10
digits of `n`, most significant first, and `0` for zero. -/
def spec_decimal (n : Nat) : String :=
  if n = 0 then "0" else String.mk ((Nat.digits 10 n).reverse.map Nat.digitChar)

/-- The status response as the specification words it. -/
def spec_status_response (c : Nat) (body : String) : String :=
  "HTTP/1.0 " ++ spec_decimal c ++ " " ++ spec_reason c ++
  "\r\nServer: libwebsockets\r\nContent-Type: text/html\r\n\r\n<h1>" ++
  spec_decimal c ++ " " ++ spec_reason c ++ "</h1>" ++ body

/-- The file response header as the specification words it. -/
def spec_file_header (content_type extra : String) (len : Nat) : String :=
  "HTTP/1.0 200 OK\r\nServer: libwebsockets\r\nContent-Type: " ++ content_type ++ "\r\n" ++
  extra ++ "Content-Length: " ++ spec_decimal len ++ "\r\n\r\n"

/-! ## HTTP servicing: truncated sends, the read path, the write path -/

/-- C1. Truncated-send priority: in mode `HTTP_SERVING` or
`HTTP_SERVING_ACCEPTED` with a non-null pending truncated send, for every
readiness bitmask one call makes exactly one `lws_issue_raw` of the pending
buffer at `truncated_send_offset` with `truncated_send_len` bytes when the
bitmask contains `POLLOUT` and makes no call at all otherwise; so there is no
read, no parser call, no user callback, no poll-interest change and no close;
the record is unchanged and the call returns 0. -/
theorem truncated_send_priority (env : Env) (wsi : Wsi) (pollfd : Pollfd)
    (buf : List Nat)
    (hmode : wsi.mode = ConnMode.HTTP_SERVING ∨
      wsi.mode = ConnMode.HTTP_SERVING_ACCEPTED)
    (hpending : wsi.truncated_send_malloc = some buf) :
    (lws_server_socket_service env wsi pollfd).ret = 0 ∧
    (lws_server_socket_service env wsi pollfd).wsi = wsi ∧
    (lws_server_socket_service env wsi pollfd).new_wsi = none ∧
    (lws_server_socket_service env wsi pollfd).trace =
      (if pollfd.revents &&& env.LWS_POLLOUT ≠ 0 then
        [Ev.lws_issue_raw Who.wsi (buf.drop wsi.truncated_send_offset)
          wsi.truncated_send_len]
       else []) ∧
    (∀ e ∈ (lws_server_socket_service env wsi pollfd).trace,
      e.is_read = false ∧ e.is_parser_call = false ∧ e.is_user_callback = false ∧
      e.is_poll_change = false ∧ e.is_close = false) := by
  have hsvc : lws_server_socket_service env wsi pollfd = http_serving env wsi pollfd := by
    rcases hmode with h | h <;> simp [lws_server_socket_service, h]
  rw [hsvc]
  by_cases hout : pollfd.revents &&& env.LWS_POLLOUT = 0
  · simp [http_serving, hpending, hout]
  · simp [http_serving, hpending, hout, Ev.is_read, Ev.is_parser_call,
      Ev.is_user_callback, Ev.is_poll_change, Ev.is_close]

/-- Witness for C1: a connection that is both readable and writable
(`revents = POLLIN | POLLOUT = 5`) with pending bytes `[10, 20, 30]` at offset
1, length 2. -/
theorem truncated_send_priority_witness :
    (lws_server_socket_service sample_env
      { sample_wsi with truncated_send_malloc := some [10, 20, 30],
                        truncated_send_offset := 1, truncated_send_len := 2 }
      ⟨7, 5⟩).trace = [Ev.lws_issue_raw Who.wsi [20, 30] 2] :=
  (truncated_send_priority sample_env
      { sample_wsi with truncated_send_malloc := some [10, 20, 30],
                        truncated_send_offset := 1, truncated_send_len := 2 }
      ⟨7, 5⟩ [10, 20, 30] (Or.inl rfl) rfl).2.2.2.1

/-- The service call on an HTTP-mode record is the HTTP block. -/
theorem service_http_mode (env : Env) (wsi : Wsi) (pollfd : Pollfd)
    (hmode : wsi.mode = ConnMode.HTTP_SERVING ∨
      wsi.mode = ConnMode.HTTP_SERVING_ACCEPTED) :
    lws_server_socket_service env wsi pollfd = http_serving env wsi pollfd := by
  rcases hmode with h | h <;> simp [lws_server_socket_service, h]

/-- The HTTP block on a readable connection without a pending write: one
read, then the three-way classification of its result. -/
theorem http_serving_read (env : Env) (wsi : Wsi) (pollfd : Pollfd)
    (hpending : wsi.truncated_send_malloc = none)
    (hin : pollfd.revents &&& env.LWS_POLLIN ≠ 0) :
    http_serving env wsi pollfd =
      ⟨0, wsi, none,
        http_read_event env wsi pollfd ::
        (if env.read_len < 0 then
          (if env.read_errno = env.LWS_EAGAIN ∨ env.read_errno = env.LWS_EINTR then []
           else [Ev.libwebsocket_close_and_free_session Who.wsi])
         else if env.read_len = 0 then
          (if wsi.hdr_parsing_completed = false then [Ev.free_ah Who.wsi] else []) ++
            [Ev.libwebsocket_close_and_free_session Who.wsi]
         else [Ev.libwebsocket_read Who.wsi env.service_buffer env.read_len])⟩ := by
  unfold http_serving http_read_event
  rw [hpending]
  simp only [hin, ne_eq, not_false_eq_true, if_true]
  split_ifs <;> simp_all

/-- The read call is a read and nothing else. -/
theorem http_read_event_kind (env : Env) (wsi : Wsi) (pollfd : Pollfd) :
    (http_read_event env wsi pollfd).is_read = true ∧
    (http_read_event env wsi pollfd).is_write = false ∧
    (http_read_event env wsi pollfd).is_parser_call = false ∧
    (http_read_event env wsi pollfd).is_poll_change = false ∧
    (http_read_event env wsi pollfd).is_user_callback = false := by
  unfold http_read_event
  split <;> simp [Ev.is_read, Ev.is_write, Ev.is_parser_call, Ev.is_poll_change,
    Ev.is_user_callback]

/-- C10. Read-result classification: in mode `HTTP_SERVING` or
`HTTP_SERVING_ACCEPTED` with no pending write and `POLLIN` set, one call makes
exactly one read and returns 0; a read of 0 closes the connection, after
freeing the header buffer when header parsing had not completed; a negative
read with `EINTR` or `EAGAIN` does nothing more and leaves the record
unchanged; a negative read with any other error closes the connection; in
these three cases the parser is not called and nothing is written; the parser
is called, with the service buffer and the length read, exactly when the
length is positive. -/
theorem read_result_classification (env : Env) (wsi : Wsi) (pollfd : Pollfd)
    (hmode : wsi.mode = ConnMode.HTTP_SERVING ∨
      wsi.mode = ConnMode.HTTP_SERVING_ACCEPTED)
    (hpending : wsi.truncated_send_malloc = none)
    (hin : pollfd.revents &&& env.LWS_POLLIN ≠ 0) :
    (lws_server_socket_service env wsi pollfd).ret = 0 ∧
    (lws_server_socket_service env wsi pollfd).wsi = wsi ∧
    ((lws_server_socket_service env wsi pollfd).trace.countP Ev.is_read = 1) ∧
    ((lws_server_socket_service env wsi pollfd).trace.countP Ev.is_write = 0) ∧
    (env.read_len = 0 →
      (lws_server_socket_service env wsi pollfd).trace =
        [http_read_event env wsi pollfd] ++
        (if wsi.hdr_parsing_completed = false then [Ev.free_ah Who.wsi] else []) ++
        [Ev.libwebsocket_close_and_free_session Who.wsi]) ∧
    (env.read_len < 0 →
      (env.read_errno = env.LWS_EAGAIN ∨ env.read_errno = env.LWS_EINTR) →
      (lws_server_socket_service env wsi pollfd).trace =
        [http_read_event env wsi pollfd]) ∧
    (env.read_len < 0 →
      ¬ (env.read_errno = env.LWS_EAGAIN ∨ env.read_errno = env.LWS_EINTR) →
      (lws_server_socket_service env wsi pollfd).trace =
        [http_read_event env wsi pollfd,
         Ev.libwebsocket_close_and_free_session Who.wsi]) ∧
    (0 < env.read_len →
      (lws_server_socket_service env wsi pollfd).trace =
        [http_read_event env wsi pollfd,
         Ev.libwebsocket_read Who.wsi env.service_buffer env.read_len]) ∧
    ((∃ e ∈ (lws_server_socket_service env wsi pollfd).trace,
        e.is_parser_call = true) ↔ 0 < env.read_len) := by
  rw [service_http_mode env wsi pollfd hmode, http_serving_read env wsi pollfd hpending hin]
  obtain ⟨hread, hnw, hnp, -, -⟩ := http_read_event_kind env wsi pollfd
  rcases lt_trichotomy env.read_len 0 with hneg | hzero | hpos
  · have h0 : ¬ env.read_len = 0 := by omega
    have h1 : ¬ 0 < env.read_len := by omega
    by_cases herr : env.read_errno = env.LWS_EAGAIN ∨ env.read_errno = env.LWS_EINTR
    · simp [hread, hnw, hnp, h0, h1, herr, hneg]
    · simp only [hread, hnw, hnp, h0, h1, herr, hneg, List.countP_cons, if_true, if_false,
        List.countP_nil, List.mem_cons, exists_eq_or_imp]
      simp [Ev.is_write, Ev.is_parser_call, Ev.is_read]
  · have h1 : ¬ env.read_len < 0 := by omega
    have h2 : ¬ 0 < env.read_len := by omega
    by_cases hdone : wsi.hdr_parsing_completed = false
    · simp only [hread, hnw, hnp, h1, h2, hzero, hdone, List.countP_cons, if_true, if_false,
        List.countP_nil, List.mem_cons, exists_eq_or_imp, List.cons_append, List.nil_append]
      simp [Ev.is_write, Ev.is_parser_call, Ev.is_read]
    · simp only [hread, hnw, hnp, h1, h2, hzero, hdone, List.countP_cons, if_true, if_false,
        List.countP_nil, List.mem_cons, exists_eq_or_imp, List.cons_append, List.nil_append]
      simp [Ev.is_write, Ev.is_parser_call, Ev.is_read]
  · have h0 : ¬ env.read_len = 0 := by omega
    have h1 : ¬ env.read_len < 0 := by omega
    simp only [hread, hnw, hnp, hpos, h0, h1, List.countP_cons, if_true, if_false,
      List.countP_nil, List.mem_cons, exists_eq_or_imp]
    simp [Ev.is_write, Ev.is_parser_call, Ev.is_read]

/-- Witness for C10: a readable connection whose read returns 0 before header
parsing has completed. -/
theorem read_result_classification_witness :
    (lws_server_socket_service { sample_env with read_len := 0 } sample_wsi ⟨7, 1⟩).trace =
      [Ev.recv 7 false, Ev.free_ah Who.wsi,
       Ev.libwebsocket_close_and_free_session Who.wsi] :=
  (read_result_classification { sample_env with read_len := 0 } sample_wsi ⟨7, 1⟩
    (Or.inl rfl) rfl (by decide)).2.2.2.2.1 rfl

/-- The HTTP block on a connection that is writable, not readable and has no
pending write, when the one-shot disarm succeeds. -/
theorem http_serving_write (env : Env) (wsi : Wsi) (pollfd : Pollfd)
    (hpending : wsi.truncated_send_malloc = none)
    (hin : pollfd.revents &&& env.LWS_POLLIN = 0)
    (hout : pollfd.revents &&& env.LWS_POLLOUT ≠ 0)
    (hdisarm : env.lws_change_pollfd Who.wsi env.LWS_POLLOUT 0 = 0) :
    http_serving env wsi pollfd =
      ⟨0, wsi, none,
        [Ev.lws_change_pollfd Who.wsi env.LWS_POLLOUT 0] ++
        libev env [Ev.ev_io_stop Who.wsi Watcher.w_write] ++
        (if wsi.state = WsiState.HTTP_ISSUING_FILE then
          Ev.libwebsockets_serve_http_file_fragment Who.wsi ::
            (if env.libwebsockets_serve_http_file_fragment ≠ 0 then
              [Ev.libwebsocket_close_and_free_session Who.wsi] else [])
         else
          Ev.user_callback_handle_rxflow Who.wsi CallbackReason.HTTP_WRITEABLE ::
            (if env.user_callback_handle_rxflow < 0 then
              [Ev.libwebsocket_close_and_free_session Who.wsi] else []))⟩ := by
  unfold http_serving
  rw [hpending]
  simp only [hin, hout, hdisarm, ne_eq, not_false_eq_true, not_true_eq_false, if_true,
    if_false]
  split_ifs <;> simp_all

/-- C8 (amended). In mode `HTTP_SERVING` or `HTTP_SERVING_ACCEPTED` with no
pending write and `POLLOUT` signalled: if `POLLIN` is signalled too, the call
makes no poll-interest change, no write and no user callback, and when the
read returns a positive length and the parser a non-negative value its only
calls are that read and that parser call and it returns 0; the writable check
(disarm of the one-shot `POLLOUT` interest, then the next file fragment in
state `HTTP_ISSUING_FILE` or else the `HTTP_WRITEABLE` callback) is made by a
call whose bitmask has `POLLOUT` without `POLLIN`. -/
theorem read_path_ends_the_call (env : Env) (wsi : Wsi) (pollfd : Pollfd)
    (hmode : wsi.mode = ConnMode.HTTP_SERVING ∨
      wsi.mode = ConnMode.HTTP_SERVING_ACCEPTED)
    (hpending : wsi.truncated_send_malloc = none)
    (hout : pollfd.revents &&& env.LWS_POLLOUT ≠ 0) :
    (pollfd.revents &&& env.LWS_POLLIN ≠ 0 →
      (∀ e ∈ (lws_server_socket_service env wsi pollfd).trace,
        e.is_poll_change = false ∧ e.is_write = false ∧ e.is_user_callback = false) ∧
      (0 < env.read_len → 0 ≤ env.libwebsocket_read →
        (lws_server_socket_service env wsi pollfd).trace =
          [http_read_event env wsi pollfd,
           Ev.libwebsocket_read Who.wsi env.service_buffer env.read_len] ∧
        (lws_server_socket_service env wsi pollfd).ret = 0)) ∧
    (pollfd.revents &&& env.LWS_POLLIN = 0 →
      env.lws_change_pollfd Who.wsi env.LWS_POLLOUT 0 = 0 →
      (lws_server_socket_service env wsi pollfd).ret = 0 ∧
      (lws_server_socket_service env wsi pollfd).trace =
        [Ev.lws_change_pollfd Who.wsi env.LWS_POLLOUT 0] ++
        libev env [Ev.ev_io_stop Who.wsi Watcher.w_write] ++
        (if wsi.state = WsiState.HTTP_ISSUING_FILE then
          Ev.libwebsockets_serve_http_file_fragment Who.wsi ::
            (if env.libwebsockets_serve_http_file_fragment ≠ 0 then
              [Ev.libwebsocket_close_and_free_session Who.wsi] else [])
         else
          Ev.user_callback_handle_rxflow Who.wsi CallbackReason.HTTP_WRITEABLE ::
            (if env.user_callback_handle_rxflow < 0 then
              [Ev.libwebsocket_close_and_free_session Who.wsi] else []))) := by
  rw [service_http_mode env wsi pollfd hmode]
  constructor
  · intro hin
    rw [http_serving_read env wsi pollfd hpending hin]
    obtain ⟨-, hnw, -, hnc, hnu⟩ := http_read_event_kind env wsi pollfd
    constructor
    · intro e he
      simp only [List.mem_cons] at he
      rcases he with rfl | he
      · exact ⟨hnc, hnw, hnu⟩
      · split_ifs at he <;> simp at he
        all_goals
          rcases he with rfl | rfl <;>
            simp [Ev.is_poll_change, Ev.is_write, Ev.is_user_callback]
    · intro hlen _
      have h0 : ¬ env.read_len = 0 := by omega
      have h1 : ¬ env.read_len < 0 := by omega
      simp [h0, h1]
  · intro hin hdisarm
    rw [http_serving_write env wsi pollfd hpending hin hout hdisarm]
    simp

/-- Witness for C8 (amended): `revents = POLLIN | POLLOUT`, the read returns 5
bytes and the parser returns 0. -/
theorem read_path_ends_the_call_witness :
    (lws_server_socket_service sample_env sample_wsi ⟨7, 5⟩).trace =
      [Ev.recv 7 false, Ev.libwebsocket_read Who.wsi [71, 69, 84, 32, 47] 5] :=
  ((read_path_ends_the_call sample_env sample_wsi ⟨7, 5⟩ (Or.inl rfl) rfl
    (by decide)).1 (by decide)).2 (by decide) (by decide) |>.1

/-- C8 (as stated) fails: mode `HTTP_SERVING`, no pending write,
`revents = POLLIN | POLLOUT`, the read returns 5 and the parser returns 0, yet
the call makes no poll-interest change, serves no fragment and invokes no user
callback. -/
theorem write_check_after_read_counterexample :
    sample_wsi.mode = ConnMode.HTTP_SERVING ∧
    sample_wsi.truncated_send_malloc = none ∧
    (5 &&& sample_env.LWS_POLLIN ≠ 0) ∧
    (5 &&& sample_env.LWS_POLLOUT ≠ 0) ∧
    0 < sample_env.read_len ∧
    0 ≤ sample_env.libwebsocket_read ∧
    (lws_server_socket_service sample_env sample_wsi ⟨7, 5⟩).trace =
      [Ev.recv 7 false, Ev.libwebsocket_read Who.wsi [71, 69, 84, 32, 47] 5] ∧
    (∀ e ∈ (lws_server_socket_service sample_env sample_wsi ⟨7, 5⟩).trace,
      e.is_poll_change = false ∧ e.is_write = false ∧ e.is_user_callback = false) := by
  decide

/-! ## TLS handshake driver -/

/-- The service call on an `SSL_ACK_PENDING` record of a TLS build is the
`SSL_ACK_PENDING` block. -/
theorem service_ssl_ack_pending (env : Env) (wsi : Wsi) (pollfd : Pollfd)
    (htls : env.LWS_OPENSSL_SUPPORT = true)
    (hmode : wsi.mode = ConnMode.SSL_ACK_PENDING) :
    lws_server_socket_service env wsi pollfd =
      ⟨(ssl_ack_pending env Who.wsi wsi).1, (ssl_ack_pending env Who.wsi wsi).2.1, none,
       (ssl_ack_pending env Who.wsi wsi).2.2⟩ := by
  simp [lws_server_socket_service, hmode, htls]

/-- The `SSL_ACK_PENDING` block when the sniff finds cleartext. -/
theorem ssl_ack_pending_cleartext (env : Env) (who : Who) (w : Wsi)
    (hdisarm : env.lws_change_pollfd who env.LWS_POLLOUT 0 = 0)
    (hc : env.allow_non_ssl_on_ssl_port = true ∧ env.peek_len ≥ 1 ∧
      env.peek_byte % 256 ≥ 0x20) :
    ssl_ack_pending env who w =
      (0, { w with use_ssl := false, ssl := none, mode := ConnMode.HTTP_SERVING },
       ack_pending_head env who w ++
       [Ev.SSL_shutdown w.ssl, Ev.SSL_free w.ssl,
        Ev.libwebsocket_set_timeout who PendingTimeout.ESTABLISH_WITH_SERVER]) := by
  simp [ssl_ack_pending, hdisarm, hc, accepted, ack_pending_head]

/-- The `SSL_ACK_PENDING` block when the sniff does not find cleartext. -/
theorem ssl_ack_pending_handshake (env : Env) (who : Who) (w : Wsi)
    (hdisarm : env.lws_change_pollfd who env.LWS_POLLOUT 0 = 0)
    (hc : ¬ (env.allow_non_ssl_on_ssl_port = true ∧ env.peek_len ≥ 1 ∧
      env.peek_byte % 256 ≥ 0x20)) :
    ssl_ack_pending env who w =
      if env.SSL_accept = 1 then
        (0, { w with mode := ConnMode.HTTP_SERVING },
         ack_pending_head env who w ++ [Ev.SSL_accept w.ssl, Ev.lws_latency who,
           Ev.libwebsocket_set_timeout who PendingTimeout.ESTABLISH_WITH_SERVER])
      else if env.SSL_get_error = SSL_ERROR_WANT_READ then
        if env.lws_change_pollfd who 0 env.LWS_POLLIN = 0 then
          (0, w, ack_pending_head env who w ++ [Ev.SSL_accept w.ssl, Ev.lws_latency who,
            Ev.lws_change_pollfd who 0 env.LWS_POLLIN] ++
            libev env [Ev.ev_io_start who Watcher.w_read])
        else
          (1, w, ack_pending_head env who w ++ [Ev.SSL_accept w.ssl, Ev.lws_latency who,
            Ev.lws_change_pollfd who 0 env.LWS_POLLIN,
            Ev.libwebsocket_close_and_free_session who])
      else if env.SSL_get_error = SSL_ERROR_WANT_WRITE then
        if env.lws_change_pollfd who 0 env.LWS_POLLOUT = 0 then
          (0, w, ack_pending_head env who w ++ [Ev.SSL_accept w.ssl, Ev.lws_latency who,
            Ev.lws_change_pollfd who 0 env.LWS_POLLOUT] ++
            libev env [Ev.ev_io_start who Watcher.w_write])
        else
          (1, w, ack_pending_head env who w ++ [Ev.SSL_accept w.ssl, Ev.lws_latency who,
            Ev.lws_change_pollfd who 0 env.LWS_POLLOUT,
            Ev.libwebsocket_close_and_free_session who])
      else
        (0, w, ack_pending_head env who w ++ [Ev.SSL_accept w.ssl, Ev.lws_latency who,
          Ev.libwebsocket_close_and_free_session who]) := by
  unfold ssl_ack_pending
  simp only [hdisarm, hc, accepted, ack_pending_head, fail, ne_eq, not_true_eq_false,
    if_false]
  split_ifs <;> simp_all

/-- The calls up to the peek contain no handshake step, close, timeout,
TLS allocation or TLS release. -/
theorem ack_pending_head_kind (env : Env) (who : Who) (w : Wsi) :
    ∀ e ∈ ack_pending_head env who w,
      e.is_handshake_step = false ∧ e.is_close = false ∧ e.is_set_timeout = false ∧
      e.is_ssl_alloc = false ∧ (∀ s, e ≠ Ev.SSL_free s) := by
  intro e he
  unfold ack_pending_head libev at he
  split_ifs at he <;> simp at he <;>
    rcases he with rfl | rfl | rfl | rfl <;>
    simp [Ev.is_handshake_step, Ev.is_close, Ev.is_set_timeout, Ev.is_ssl_alloc]

/-- C2. Cleartext-fallback sniff: in mode `SSL_ACK_PENDING` of a TLS build,
when the one-shot `POLLOUT` disarm succeeds, the cleartext branch (marked by
the release of the TLS session) is taken exactly when
`allow_non_ssl_on_ssl_port` is set, the peek returned at least 1 and the first
byte, as an unsigned 8-bit value, is at least 0x20.  When it is taken no
`SSL_accept` is made, the session is shut down, freed and set to null,
`use_ssl` is cleared, the timeout is armed with `ESTABLISH_WITH_SERVER`, the
mode becomes `HTTP_SERVING` and the call returns 0.  When it is not taken,
exactly one `SSL_accept` is made. -/
theorem cleartext_fallback_sniff (env : Env) (wsi : Wsi) (pollfd : Pollfd)
    (htls : env.LWS_OPENSSL_SUPPORT = true)
    (hmode : wsi.mode = ConnMode.SSL_ACK_PENDING)
    (hdisarm : env.lws_change_pollfd Who.wsi env.LWS_POLLOUT 0 = 0) :
    (Ev.SSL_free wsi.ssl ∈ (lws_server_socket_service env wsi pollfd).trace ↔
      (env.allow_non_ssl_on_ssl_port = true ∧ env.peek_len ≥ 1 ∧
        env.peek_byte % 256 ≥ 0x20)) ∧
    ((env.allow_non_ssl_on_ssl_port = true ∧ env.peek_len ≥ 1 ∧
        env.peek_byte % 256 ≥ 0x20) →
      (lws_server_socket_service env wsi pollfd).trace =
        [Ev.lws_change_pollfd Who.wsi env.LWS_POLLOUT 0] ++
        libev env [Ev.ev_io_stop Who.wsi Watcher.w_write] ++
        [Ev.lws_latency_pre Who.wsi, Ev.recv wsi.sock true,
         Ev.SSL_shutdown wsi.ssl, Ev.SSL_free wsi.ssl,
         Ev.libwebsocket_set_timeout Who.wsi PendingTimeout.ESTABLISH_WITH_SERVER] ∧
      (lws_server_socket_service env wsi pollfd).trace.countP Ev.is_handshake_step = 0 ∧
      (lws_server_socket_service env wsi pollfd).wsi =
        { wsi with use_ssl := false, ssl := none, mode := ConnMode.HTTP_SERVING } ∧
      (lws_server_socket_service env wsi pollfd).ret = 0) ∧
    (¬ (env.allow_non_ssl_on_ssl_port = true ∧ env.peek_len ≥ 1 ∧
        env.peek_byte % 256 ≥ 0x20) →
      (lws_server_socket_service env wsi pollfd).trace.countP Ev.is_handshake_step = 1) := by
  rw [service_ssl_ack_pending env wsi pollfd htls hmode]
  have hhead := ack_pending_head_kind env Who.wsi wsi
  have hcount : (ack_pending_head env Who.wsi wsi).countP Ev.is_handshake_step = 0 := by
    rw [List.countP_eq_zero]
    intro e he
    simp [(hhead e he).1]
  have hfree : Ev.SSL_free wsi.ssl ∉ ack_pending_head env Who.wsi wsi := by
    intro he
    exact (hhead _ he).2.2.2.2 wsi.ssl rfl
  by_cases hc : env.allow_non_ssl_on_ssl_port = true ∧ env.peek_len ≥ 1 ∧
      env.peek_byte % 256 ≥ 0x20
  · rw [ssl_ack_pending_cleartext env Who.wsi wsi hdisarm hc]
    refine ⟨⟨fun _ => hc, fun _ => by simp⟩, fun _ => ⟨?_, ?_, rfl, rfl⟩, fun h => absurd hc h⟩
    · simp [ack_pending_head]
    · simp only [List.countP_append, hcount]
      simp [Ev.is_handshake_step]
  · rw [ssl_ack_pending_handshake env Who.wsi wsi hdisarm hc]
    refine ⟨⟨fun h => ?_, fun h => absurd h hc⟩, fun h => absurd h hc, fun _ => ?_⟩
    · exfalso
      split_ifs at h <;> simp [hfree, libev] at h
    · split_ifs <;> simp only [List.countP_append, hcount] <;>
        simp [Ev.is_handshake_step, List.countP_cons, libev]

/-- Witness for C2: fallback allowed and the peek shows `G` (0x47). -/
theorem cleartext_fallback_sniff_witness :
    (lws_server_socket_service sample_env
      { sample_wsi with mode := ConnMode.SSL_ACK_PENDING, ssl := some 1, use_ssl := true }
      ⟨7, 1⟩).trace =
      [Ev.lws_change_pollfd Who.wsi 4 0, Ev.lws_latency_pre Who.wsi, Ev.recv 7 true,
       Ev.SSL_shutdown (some 1), Ev.SSL_free (some 1),
       Ev.libwebsocket_set_timeout Who.wsi PendingTimeout.ESTABLISH_WITH_SERVER] :=
  ((cleartext_fallback_sniff sample_env
      { sample_wsi with mode := ConnMode.SSL_ACK_PENDING, ssl := some 1, use_ssl := true }
      ⟨7, 1⟩ rfl rfl rfl).2.1 (by decide)).1

/-- C3. Handshake step outcomes: in mode `SSL_ACK_PENDING` of a TLS build,
when the cleartext branch is not taken and every poll-interest change
succeeds, one call makes exactly one `SSL_accept` and returns 0; on result 1
it arms the `ESTABLISH_WITH_SERVER` timeout and the mode becomes
`HTTP_SERVING`; on `SSL_ERROR_WANT_READ` it registers read interest, on
`SSL_ERROR_WANT_WRITE` write interest, and in both the mode stays
`SSL_ACK_PENDING` and nothing is closed; on any other error it closes the
connection.  Afterwards one of three mutually exclusive situations holds:
still `SSL_ACK_PENDING` with an interest registered and nothing closed,
`HTTP_SERVING` with nothing closed, or closed (exactly one close). -/
theorem handshake_step_outcomes (env : Env) (wsi : Wsi) (pollfd : Pollfd)
    (htls : env.LWS_OPENSSL_SUPPORT = true)
    (hmode : wsi.mode = ConnMode.SSL_ACK_PENDING)
    (hsniff : ¬ (env.allow_non_ssl_on_ssl_port = true ∧ env.peek_len ≥ 1 ∧
      env.peek_byte % 256 ≥ 0x20))
    (hpoll : ∀ clear set, env.lws_change_pollfd Who.wsi clear set = 0) :
    (lws_server_socket_service env wsi pollfd).ret = 0 ∧
    (lws_server_socket_service env wsi pollfd).trace.countP Ev.is_handshake_step = 1 ∧
    (env.SSL_accept = 1 →
      (lws_server_socket_service env wsi pollfd).trace =
        ack_pending_head env Who.wsi wsi ++
        [Ev.SSL_accept wsi.ssl, Ev.lws_latency Who.wsi,
         Ev.libwebsocket_set_timeout Who.wsi PendingTimeout.ESTABLISH_WITH_SERVER] ∧
      (lws_server_socket_service env wsi pollfd).wsi =
        { wsi with mode := ConnMode.HTTP_SERVING }) ∧
    (env.SSL_accept ≠ 1 → env.SSL_get_error = SSL_ERROR_WANT_READ →
      (lws_server_socket_service env wsi pollfd).trace =
        ack_pending_head env Who.wsi wsi ++
        [Ev.SSL_accept wsi.ssl, Ev.lws_latency Who.wsi,
         Ev.lws_change_pollfd Who.wsi 0 env.LWS_POLLIN] ++
        libev env [Ev.ev_io_start Who.wsi Watcher.w_read] ∧
      (lws_server_socket_service env wsi pollfd).wsi = wsi) ∧
    (env.SSL_accept ≠ 1 → env.SSL_get_error = SSL_ERROR_WANT_WRITE →
      (lws_server_socket_service env wsi pollfd).trace =
        ack_pending_head env Who.wsi wsi ++
        [Ev.SSL_accept wsi.ssl, Ev.lws_latency Who.wsi,
         Ev.lws_change_pollfd Who.wsi 0 env.LWS_POLLOUT] ++
        libev env [Ev.ev_io_start Who.wsi Watcher.w_write] ∧
      (lws_server_socket_service env wsi pollfd).wsi = wsi) ∧
    (env.SSL_accept ≠ 1 → env.SSL_get_error ≠ SSL_ERROR_WANT_READ →
      env.SSL_get_error ≠ SSL_ERROR_WANT_WRITE →
      (lws_server_socket_service env wsi pollfd).trace =
        ack_pending_head env Who.wsi wsi ++
        [Ev.SSL_accept wsi.ssl, Ev.lws_latency Who.wsi,
         Ev.libwebsocket_close_and_free_session Who.wsi]) ∧
    (((lws_server_socket_service env wsi pollfd).wsi.mode = ConnMode.SSL_ACK_PENDING ∧
        (Ev.lws_change_pollfd Who.wsi 0 env.LWS_POLLIN ∈
            (lws_server_socket_service env wsi pollfd).trace ∨
         Ev.lws_change_pollfd Who.wsi 0 env.LWS_POLLOUT ∈
            (lws_server_socket_service env wsi pollfd).trace) ∧
        (lws_server_socket_service env wsi pollfd).trace.countP Ev.is_close = 0) ∨
     ((lws_server_socket_service env wsi pollfd).wsi.mode = ConnMode.HTTP_SERVING ∧
        (lws_server_socket_service env wsi pollfd).trace.countP Ev.is_close = 0) ∨
     ((lws_server_socket_service env wsi pollfd).trace.countP Ev.is_close = 1 ∧
        Ev.libwebsocket_close_and_free_session Who.wsi ∈
          (lws_server_socket_service env wsi pollfd).trace)) := by
  rw [service_ssl_ack_pending env wsi pollfd htls hmode,
    ssl_ack_pending_handshake env Who.wsi wsi (hpoll _ _) hsniff]
  have hhead := ack_pending_head_kind env Who.wsi wsi
  have hcount : (ack_pending_head env Who.wsi wsi).countP Ev.is_handshake_step = 0 := by
    rw [List.countP_eq_zero]
    intro e he
    simp [(hhead e he).1]
  have hclose : (ack_pending_head env Who.wsi wsi).countP Ev.is_close = 0 := by
    rw [List.countP_eq_zero]
    intro e he
    simp [(hhead e he).2.1]
  have hev : ∀ l : List Ev, (∀ e ∈ l, e.is_close = false ∧ e.is_handshake_step = false) →
      (libev env l).countP Ev.is_close = 0 ∧
      (libev env l).countP Ev.is_handshake_step = 0 := by
    intro l hl
    unfold libev
    split_ifs
    · simp only [List.countP_eq_zero]
      exact ⟨fun e he => by simp [(hl e he).1], fun e he => by simp [(hl e he).2]⟩
    · simp
  have hr := hev [Ev.ev_io_start Who.wsi Watcher.w_read]
    (by intro e he; simp at he; subst he; exact ⟨rfl, rfl⟩)
  have hw := hev [Ev.ev_io_start Who.wsi Watcher.w_write]
    (by intro e he; simp at he; subst he; exact ⟨rfl, rfl⟩)
  have hdiff : SSL_ERROR_WANT_WRITE ≠ SSL_ERROR_WANT_READ := by decide
  by_cases h1 : env.SSL_accept = 1
  · simp only [h1, if_true, List.countP_append, hcount, hclose, hmode]
    simp [Ev.is_handshake_step, Ev.is_close, List.countP_cons]
  · by_cases hrd : env.SSL_get_error = SSL_ERROR_WANT_READ
    · have hnw : env.SSL_get_error ≠ SSL_ERROR_WANT_WRITE := by
        rw [hrd]; exact fun h => hdiff h.symm
      simp only [h1, hrd, hpoll, if_true, if_false, List.countP_append, hcount, hclose,
        hr.1, hr.2, hmode]
      simp [Ev.is_handshake_step, Ev.is_close, List.countP_cons, hdiff.symm]
    · by_cases hwr : env.SSL_get_error = SSL_ERROR_WANT_WRITE
      · simp only [h1, hwr, hdiff, hpoll, if_true, if_false, List.countP_append, hcount, hclose,
          hw.1, hw.2, hmode]
        simp [Ev.is_handshake_step, Ev.is_close, List.countP_cons, hdiff]
      · simp only [h1, hrd, hwr, hpoll, if_true, if_false, List.countP_append, hcount, hclose,
          hmode]
        simp [Ev.is_handshake_step, Ev.is_close, List.countP_cons]

/-- Witness for C3: fallback not allowed, `SSL_accept` returns -1 and the
error is `SSL_ERROR_WANT_READ`. -/
theorem handshake_step_outcomes_witness :
    (lws_server_socket_service
      { sample_env with allow_non_ssl_on_ssl_port := false, SSL_accept := -1,
                        SSL_get_error := 2 }
      { sample_wsi with mode := ConnMode.SSL_ACK_PENDING, ssl := some 1, use_ssl := true }
      ⟨7, 1⟩).trace =
      [Ev.lws_change_pollfd Who.wsi 4 0, Ev.lws_latency_pre Who.wsi, Ev.recv 7 true,
       Ev.SSL_accept (some 1), Ev.lws_latency Who.wsi,
       Ev.lws_change_pollfd Who.wsi 0 1] :=
  ((handshake_step_outcomes
      { sample_env with allow_non_ssl_on_ssl_port := false, SSL_accept := -1,
                        SSL_get_error := 2 }
      { sample_wsi with mode := ConnMode.SSL_ACK_PENDING, ssl := some 1, use_ssl := true }
      ⟨7, 1⟩ rfl rfl (by decide) (fun _ _ => rfl)).2.2.2.1 (by decide) rfl).1

/-! ## Connection admission -/

/-- The service call on the listener record is the listener block. -/
theorem service_listener (env : Env) (wsi : Wsi) (pollfd : Pollfd)
    (hmode : wsi.mode = ConnMode.SERVER_LISTENER) :
    lws_server_socket_service env wsi pollfd = server_listener env wsi pollfd := by
  simp [lws_server_socket_service, hmode]

/-- After a successful accept the trace starts with `accept_head`. -/
theorem server_listener_head (env : Env) (wsi : Wsi) (pollfd : Pollfd)
    (hin : pollfd.revents &&& env.LWS_POLLIN ≠ 0)
    (haccept : 0 ≤ env.accept) :
    (server_listener env wsi pollfd).trace.take 5 = accept_head env pollfd := by
  have hna : ¬ env.accept < 0 := by omega
  by_cases hfilter : env.callback CallbackReason.FILTER_NETWORK_CONNECTION = 0
  · rcases hcreate : libwebsocket_create_new_server_wsi env with ⟨_ | nw, t1⟩
    · simp [server_listener, hin, hna, hfilter, hcreate, accept_head]
    · simp only [server_listener, hin, hna, hfilter, hcreate, accept_head, not_true_eq_false,
        not_false_eq_true, if_true, if_false, ne_eq]
      split_ifs <;> simp
  · simp [server_listener, hin, hna, hfilter, accept_head]

/-- C5. Accept rejection: when the listener is readable and `accept` returns a
descriptor `fd`, the calls made before and including the
`FILTER_NETWORK_CONNECTION` callback are latency bookkeeping, `accept` and
socket tuning, whatever the filter returns, so the filter precedes every
allocation.  When the filter returns non-zero the only further call is one
`compatible_close(fd)`: no connection record is created, nothing is
allocated, no other callback is made, no timeout is armed, nothing is
registered for polling, the listener record is unchanged and not closed, and
the call returns 0. -/
theorem accept_rejection (env : Env) (wsi : Wsi) (pollfd : Pollfd)
    (hmode : wsi.mode = ConnMode.SERVER_LISTENER)
    (hin : pollfd.revents &&& env.LWS_POLLIN ≠ 0)
    (haccept : 0 ≤ env.accept) :
    (lws_server_socket_service env wsi pollfd).trace.take 5 =
      [Ev.lws_latency_pre Who.wsi, Ev.accept pollfd.fd, Ev.lws_latency Who.wsi,
       Ev.lws_plat_set_socket_options env.accept,
       Ev.callback Who.wsi CallbackReason.FILTER_NETWORK_CONNECTION (some env.accept)] ∧
    (env.callback CallbackReason.FILTER_NETWORK_CONNECTION ≠ 0 →
      (lws_server_socket_service env wsi pollfd).trace =
        [Ev.lws_latency_pre Who.wsi, Ev.accept pollfd.fd, Ev.lws_latency Who.wsi,
         Ev.lws_plat_set_socket_options env.accept,
         Ev.callback Who.wsi CallbackReason.FILTER_NETWORK_CONNECTION (some env.accept),
         Ev.compatible_close env.accept] ∧
      (lws_server_socket_service env wsi pollfd).new_wsi = none ∧
      (lws_server_socket_service env wsi pollfd).wsi = wsi ∧
      (lws_server_socket_service env wsi pollfd).ret = 0 ∧
      (lws_server_socket_service env wsi pollfd).trace.countP Ev.is_close = 1 ∧
      (lws_server_socket_service env wsi pollfd).trace.countP Ev.is_user_callback = 1 ∧
      (∀ e ∈ (lws_server_socket_service env wsi pollfd).trace,
        e.is_alloc = false ∧ e.is_set_timeout = false ∧ e.is_poll_change = false ∧
        e ≠ Ev.libwebsocket_close_and_free_session Who.wsi)) := by
  rw [service_listener env wsi pollfd hmode]
  constructor
  · exact server_listener_head env wsi pollfd hin haccept
  · intro hfilter
    have hna : ¬ env.accept < 0 := by omega
    simp [server_listener, hin, hna, hfilter, Ev.is_close, Ev.is_user_callback, Ev.is_alloc,
      Ev.is_set_timeout, Ev.is_poll_change, List.countP_cons]

/-- Witness for C5: `accept` returns descriptor 9 and the filter returns 1. -/
theorem accept_rejection_witness :
    (lws_server_socket_service { sample_env with callback := fun _ => 1 }
      { sample_wsi with mode := ConnMode.SERVER_LISTENER } ⟨7, 1⟩).trace =
      [Ev.lws_latency_pre Who.wsi, Ev.accept 7, Ev.lws_latency Who.wsi,
       Ev.lws_plat_set_socket_options 9,
       Ev.callback Who.wsi CallbackReason.FILTER_NETWORK_CONNECTION (some 9),
       Ev.compatible_close 9] :=
  ((accept_rejection { sample_env with callback := fun _ => 1 }
      { sample_wsi with mode := ConnMode.SERVER_LISTENER } ⟨7, 1⟩ rfl (by decide)
      (by decide)).2 (by decide)).1

/-- The admission calls allocate no TLS session and make no handshake step. -/
theorem admission_head_kind (env : Env) (pollfd : Pollfd) :
    (admission_head env pollfd).countP Ev.is_ssl_alloc = 0 ∧
    (admission_head env pollfd).countP Ev.is_handshake_step = 0 := by
  unfold admission_head accept_head libev
  split_ifs <;> simp [List.countP_cons, Ev.is_ssl_alloc, Ev.is_handshake_step]

/-- The TLS session set-up allocates nothing. -/
theorem ssl_session_setup_kind (env : Env) (ssl : Option Nat) (fd : Int) :
    (ssl_session_setup env ssl fd).countP Ev.is_ssl_alloc = 0 := by
  unfold ssl_session_setup
  split_ifs <;> simp [List.countP_cons, Ev.is_ssl_alloc]

/-- The `SSL_ACK_PENDING` block allocates no TLS session. -/
theorem ssl_ack_pending_no_alloc (env : Env) (who : Who) (w : Wsi) :
    (ssl_ack_pending env who w).2.2.countP Ev.is_ssl_alloc = 0 := by
  unfold ssl_ack_pending accepted fail libev
  simp only []
  split_ifs <;> simp [List.countP_cons, Ev.is_ssl_alloc]

/-- C9 (amended). Admission branch: after a successful accept that passes the
filter and allocates a record, if the build has no TLS support or the
listener has no TLS configured (`use_ssl` clear), the call registers the new
connection and returns 0, leaving it in mode `HTTP_SERVING` with a null TLS
session and the `ESTABLISH_WITH_SERVER` timeout as the only one armed, with no
TLS session allocated and no handshake step.  Whenever TLS is configured,
whatever `allow_non_ssl_on_ssl_port` says, exactly one `SSL_new` is made, and
when it succeeds the session is set up, the mode set to `SSL_ACK_PENDING`, the
connection registered, the `SSL_ACCEPT` timeout armed and the call continues
with the `SSL_ACK_PENDING` block on the new record. -/
theorem admission_branch (env : Env) (wsi : Wsi) (pollfd : Pollfd)
    (hmode : wsi.mode = ConnMode.SERVER_LISTENER)
    (hin : pollfd.revents &&& env.LWS_POLLIN ≠ 0)
    (haccept : 0 ≤ env.accept)
    (hfilter : env.callback CallbackReason.FILTER_NETWORK_CONNECTION = 0)
    (hmalloc : env.malloc_ok = true)
    (hheaders : env.lws_allocate_header_table = 0) :
    ((env.LWS_OPENSSL_SUPPORT = false ∨ env.use_ssl = false) →
      lws_server_socket_service env wsi pollfd =
        ⟨0, wsi, some (admitted_wsi env),
          admission_head env pollfd ++ [Ev.insert_wsi_socket_into_fds Who.new_wsi]⟩ ∧
      (admitted_wsi env).mode = ConnMode.HTTP_SERVING ∧
      (admitted_wsi env).ssl = none ∧
      (lws_server_socket_service env wsi pollfd).trace.countP Ev.is_ssl_alloc = 0 ∧
      (lws_server_socket_service env wsi pollfd).trace.countP Ev.is_handshake_step = 0) ∧
    ((env.LWS_OPENSSL_SUPPORT = true ∧ env.use_ssl = true) →
      (lws_server_socket_service env wsi pollfd).trace.countP Ev.is_ssl_alloc = 1 ∧
      (∀ s, env.SSL_new = some s →
        lws_server_socket_service env wsi pollfd =
          ⟨(ssl_ack_pending env Who.new_wsi
              { admitted_wsi env with ssl := some s, mode := ConnMode.SSL_ACK_PENDING }).1,
           wsi,
           some (ssl_ack_pending env Who.new_wsi
              { admitted_wsi env with ssl := some s, mode := ConnMode.SSL_ACK_PENDING }).2.1,
           admission_head env pollfd ++ [Ev.SSL_new] ++
             ssl_session_setup env (some s) env.accept ++
             [Ev.insert_wsi_socket_into_fds Who.new_wsi,
              Ev.libwebsocket_set_timeout Who.new_wsi PendingTimeout.SSL_ACCEPT] ++
             (ssl_ack_pending env Who.new_wsi
               { admitted_wsi env with ssl := some s,
                                       mode := ConnMode.SSL_ACK_PENDING }).2.2⟩)) := by
  rw [service_listener env wsi pollfd hmode]
  have hna : ¬ env.accept < 0 := by omega
  have hcreate : libwebsocket_create_new_server_wsi env =
      (some { admitted_wsi env with sock := 0 },
       [Ev.malloc_wsi, Ev.lws_allocate_header_table,
        Ev.callback Who.new_wsi CallbackReason.WSI_CREATE none]) := by
    simp [libwebsocket_create_new_server_wsi, hmalloc, hheaders, admitted_wsi]
  obtain ⟨hk1, hk2⟩ := admission_head_kind env pollfd
  constructor
  · intro hcfg
    have hres : server_listener env wsi pollfd =
        ⟨0, wsi, some (admitted_wsi env),
          admission_head env pollfd ++ [Ev.insert_wsi_socket_into_fds Who.new_wsi]⟩ := by
      rcases hcfg with h | h
      · simp [server_listener, hin, hna, hfilter, hcreate, h, admission_head, accept_head,
          admitted_wsi]
      · by_cases ht : env.LWS_OPENSSL_SUPPORT = false
        · simp [server_listener, hin, hna, hfilter, hcreate, ht, admission_head, accept_head,
            admitted_wsi]
        · simp [server_listener, hin, hna, hfilter, hcreate, h, ht, admission_head,
            accept_head, admitted_wsi]
    rw [hres]
    refine ⟨rfl, rfl, rfl, ?_, ?_⟩
    · simp only [List.countP_append, hk1]
      simp [Ev.is_ssl_alloc]
    · simp only [List.countP_append, hk2]
      simp [Ev.is_handshake_step]
  · rintro ⟨ht, hu⟩
    rcases hnew : env.SSL_new with _ | s
    · simp [server_listener, hin, hna, hfilter, hcreate, ht, hu, hnew, List.countP_cons,
        List.countP_append, Ev.is_ssl_alloc, libev]
      rintro a - (rfl | rfl) <;> rfl
    · have hres : server_listener env wsi pollfd =
          ⟨(ssl_ack_pending env Who.new_wsi
              { admitted_wsi env with ssl := some s, mode := ConnMode.SSL_ACK_PENDING }).1,
           wsi,
           some (ssl_ack_pending env Who.new_wsi
              { admitted_wsi env with ssl := some s, mode := ConnMode.SSL_ACK_PENDING }).2.1,
           admission_head env pollfd ++ [Ev.SSL_new] ++
             ssl_session_setup env (some s) env.accept ++
             [Ev.insert_wsi_socket_into_fds Who.new_wsi,
              Ev.libwebsocket_set_timeout Who.new_wsi PendingTimeout.SSL_ACCEPT] ++
             (ssl_ack_pending env Who.new_wsi
               { admitted_wsi env with ssl := some s,
                                       mode := ConnMode.SSL_ACK_PENDING }).2.2⟩ := by
        simp [server_listener, hin, hna, hfilter, hcreate, ht, hu, hnew, admission_head,
          accept_head, admitted_wsi]
      rw [hres]
      refine ⟨?_, fun s' hs' => ?_⟩
      · simp only [List.countP_append, hk1, ssl_session_setup_kind, ssl_ack_pending_no_alloc]
        simp [Ev.is_ssl_alloc, List.countP_cons]
      · cases hs'
        rfl

/-- Witness for C9 (amended): a listener without TLS configured. -/
theorem admission_branch_witness :
    lws_server_socket_service { sample_env with use_ssl := false } sample_listener ⟨7, 1⟩ =
      ⟨0, sample_listener, some (admitted_wsi { sample_env with use_ssl := false }),
        [Ev.lws_latency_pre Who.wsi, Ev.accept 7, Ev.lws_latency Who.wsi,
         Ev.lws_plat_set_socket_options 9,
         Ev.callback Who.wsi CallbackReason.FILTER_NETWORK_CONNECTION (some 9),
         Ev.malloc_wsi, Ev.lws_allocate_header_table,
         Ev.callback Who.new_wsi CallbackReason.WSI_CREATE none,
         Ev.libwebsocket_set_timeout Who.new_wsi PendingTimeout.ESTABLISH_WITH_SERVER,
         Ev.callback Who.new_wsi CallbackReason.SERVER_NEW_CLIENT_INSTANTIATED none,
         Ev.insert_wsi_socket_into_fds Who.new_wsi]⟩ :=
  ((admission_branch { sample_env with use_ssl := false } sample_listener ⟨7, 1⟩ rfl
    (by decide) (by decide) rfl rfl rfl).1 (Or.inr rfl)).1

/-- C9 (as stated) fails: TLS is configured and `allow_non_ssl_on_ssl_port` is
set, the accept succeeds, the filter admits and the record is allocated, yet
the call allocates a TLS session, arms the `SSL_ACCEPT` timeout, attempts a
handshake step and leaves the new connection in mode `SSL_ACK_PENDING` with a
non-null TLS session. -/
theorem admission_fallback_counterexample :
    fallback_env.LWS_OPENSSL_SUPPORT = true ∧
    fallback_env.use_ssl = true ∧
    fallback_env.allow_non_ssl_on_ssl_port = true ∧
    sample_listener.mode = ConnMode.SERVER_LISTENER ∧
    (1 &&& fallback_env.LWS_POLLIN ≠ 0) ∧
    0 ≤ fallback_env.accept ∧
    fallback_env.callback CallbackReason.FILTER_NETWORK_CONNECTION = 0 ∧
    fallback_env.malloc_ok = true ∧
    fallback_env.lws_allocate_header_table = 0 ∧
    (lws_server_socket_service fallback_env sample_listener ⟨7, 1⟩).trace.countP
      Ev.is_ssl_alloc = 1 ∧
    (lws_server_socket_service fallback_env sample_listener ⟨7, 1⟩).trace.countP
      Ev.is_handshake_step = 1 ∧
    Ev.libwebsocket_set_timeout Who.new_wsi PendingTimeout.SSL_ACCEPT ∈
      (lws_server_socket_service fallback_env sample_listener ⟨7, 1⟩).trace ∧
    (lws_server_socket_service fallback_env sample_listener ⟨7, 1⟩).new_wsi.map Wsi.mode =
      some ConnMode.SSL_ACK_PENDING ∧
    (lws_server_socket_service fallback_env sample_listener ⟨7, 1⟩).new_wsi.map Wsi.ssl =
      some (some 1) := by
  decide

/-! ## Status and file responses -/

/-- The table look-ups never leave their table and give the specified
phrase. -/
theorem status_description_eq (c : Nat) : status_description c = some (spec_reason c) := by
  unfold status_description spec_reason ARRAY_SIZE
  by_cases h4 : 400 ≤ c ∧ c < 418
  · have h5 : ¬ (500 ≤ c ∧ c < 506) := by omega
    have hlen : c - 400 < err400.length := by simp [err400]; omega
    have h4' : c ≥ 400 ∧ c < 400 + err400.length := by simp [err400]; omega
    have h5' : ¬ (c ≥ 500 ∧ c < 500 + err500.length) := by simp [err500]; omega
    simp only [h4, h4', h5', if_true, if_false, and_self]
    rw [List.getD_eq_getElem?_getD, List.get?_eq_getElem?, List.getElem?_eq_getElem hlen]
    rfl
  · by_cases h5 : 500 ≤ c ∧ c < 506
    · have hlen : c - 500 < err500.length := by simp [err500]; omega
      have h4' : ¬ (c ≥ 400 ∧ c < 400 + err400.length) := by simp [err400]; omega
      have h5' : c ≥ 500 ∧ c < 500 + err500.length := by simp [err500]; omega
      simp only [h4, h5, h4', h5', if_true, if_false, and_self]
      rw [List.getD_eq_getElem?_getD, List.get?_eq_getElem?, List.getElem?_eq_getElem hlen]
      rfl
    · have h4' : ¬ (c ≥ 400 ∧ c < 400 + err400.length) := by simp [err400]; omega
      have h5' : ¬ (c ≥ 500 ∧ c < 500 + err500.length) := by simp [err500]; omega
      simp only [h4, h5, h4', h5', if_false]

/-- The digit loop behind `%u` produces the base-10 digits, most significant
first, in front of what it was given. -/
theorem toDigitsCore_eq_digits : ∀ (fuel n : Nat) (ds : List Char), n < fuel → 0 < n →
    Nat.toDigitsCore 10 fuel n ds = (Nat.digits 10 n).reverse.map Nat.digitChar ++ ds := by
  intro fuel
  induction fuel with
  | zero => intro n ds h; omega
  | succ fuel ih =>
    intro n ds hlt hpos
    rw [Nat.digits_def' (by decide) hpos]
    simp only [Nat.toDigitsCore, List.reverse_cons, List.map_append, List.map_cons, List.map_nil,
      List.append_assoc, List.singleton_append]
    by_cases hq : n / 10 = 0
    · simp [hq]
    · have hq1 : 0 < n / 10 := Nat.pos_of_ne_zero hq
      have hq2 : n / 10 < fuel := by omega
      rw [if_neg hq, ih (n / 10) _ hq2 hq1]

/-- The conversion `%u` prints the decimal numeral. -/
theorem fmt_u_eq_spec_decimal (n : Nat) : fmt_u n = spec_decimal n := by
  unfold fmt_u spec_decimal Nat.repr Nat.toDigits
  by_cases h0 : n = 0
  · subst h0; rfl
  · rw [if_neg h0, toDigitsCore_eq_digits (n + 1) n [] (by omega) (Nat.pos_of_ne_zero h0)]
    simp [List.asString]

/-- Byte count of a concatenation. -/
theorem utf8ByteSize_append (a b : String) :
    (a ++ b).utf8ByteSize = a.utf8ByteSize + b.utf8ByteSize := by
  cases a with
  | mk as =>
    cases b with
    | mk bs =>
      show String.utf8ByteSize ⟨as ++ bs⟩ = _
      simp [String.utf8ByteSize_mk, String.utf8Len_append]

/-- The text of 5000 letters has 5000 bytes. -/
theorem long_text_size : long_text.utf8ByteSize = 5000 := by
  have h : ∀ n : Nat, String.utf8Len (List.replicate n 'x') = n := by
    intro n
    induction n with
    | zero => rfl
    | succ n ih =>
      rw [List.replicate_succ, String.utf8Len_cons, ih]
      rfl
  unfold long_text
  rw [String.utf8ByteSize_mk, h]

/-- The formatted status text is the specified response. -/
theorem status_sprintf_eq (c : Nat) (body : String) :
    status_sprintf c (spec_reason c) body = spec_status_response c body := by
  unfold status_sprintf spec_status_response
  rw [fmt_u_eq_spec_decimal]
  simp only [String.append_assoc]
  rfl

/-- The formatted file header is the specified header. -/
theorem file_header_eq (content_type : String) (other_headers : Option String) (len : Nat) :
    file_header content_type other_headers len =
      spec_file_header content_type (other_headers.getD "") len := by
  unfold file_header spec_file_header
  rw [fmt_u_eq_spec_decimal]
  cases other_headers <;> simp only [String.append_assoc, Option.getD] <;> rfl

/-- The status helper, when the response and its NUL fit the buffer and
`lwsl_info` does not meet a conversion, makes one write of the specified
response and returns the write's result. -/
theorem return_http_status_eq (env : Env) (c : Nat) (html_body : Option String)
    (hfit : (spec_status_response c (html_body.getD "")).utf8ByteSize <
      env.sizeof_service_buffer)
    (hlog : env.lwsl_info_enabled = true →
      format_takes_no_argument (spec_status_response c (html_body.getD "")).toList = true) :
    libwebsockets_return_http_status env c html_body =
      some (env.libwebsocket_write (spec_status_response c (html_body.getD ""))
              (spec_status_response c (html_body.getD "")).utf8ByteSize,
            [Ev.libwebsocket_write (spec_status_response c (html_body.getD ""))
              (spec_status_response c (html_body.getD "")).utf8ByteSize]) := by
  unfold libwebsockets_return_http_status
  rw [status_description_eq c]
  have hcap : ∀ body : String,
      (spec_status_response c body).utf8ByteSize < env.sizeof_service_buffer →
      sprintf_at env.sizeof_service_buffer 0 (spec_status_response c body) =
        some (spec_status_response c body).utf8ByteSize := by
    intro body h
    unfold sprintf_at
    rw [if_pos (by omega)]
  have hfmt : ∀ body : String,
      (env.lwsl_info_enabled = true →
        format_takes_no_argument (spec_status_response c body).toList = true) →
      ¬ (env.lwsl_info_enabled = true ∧
        format_takes_no_argument (spec_status_response c body).toList = false) := by
    intro body h ⟨h1, h2⟩
    rw [h h1] at h2
    exact Bool.noConfusion h2
  cases html_body with
  | none =>
    simp only [Option.getD] at hfit hlog
    simp only [Option.getD, status_sprintf_eq, hcap "" hfit, if_neg (hfmt "" hlog)]
  | some b =>
    simp only [Option.getD] at hfit hlog
    simp only [Option.getD, status_sprintf_eq, hcap b hfit, if_neg (hfmt b hlog)]

/-- The status helper has no result when the body alone is longer than the
buffer. -/
theorem return_http_status_overflow (env : Env) (c : Nat) (body : String)
    (hbig : env.sizeof_service_buffer ≤ body.utf8ByteSize) :
    libwebsockets_return_http_status env c (some body) = none := by
  unfold libwebsockets_return_http_status
  rw [status_description_eq c]
  have hsize : body.utf8ByteSize ≤ (status_sprintf c (spec_reason c) body).utf8ByteSize := by
    unfold status_sprintf
    rw [utf8ByteSize_append]
    omega
  have hnone : sprintf_at env.sizeof_service_buffer 0 (status_sprintf c (spec_reason c) body) =
      none := by
    unfold sprintf_at
    rw [if_neg (by omega)]
  simp only [hnone]

/-- The status helper on code 404 with a null body: the fixed 96-byte
response fits every buffer and contains no conversion. -/
theorem return_http_status_404 (env : Env) :
    libwebsockets_return_http_status env 404 none =
      some (env.libwebsocket_write
        "HTTP/1.0 404 Not Found\r\nServer: libwebsockets\r\nContent-Type: text/html\r\n\r\n<h1>404 Not Found</h1>"
        96,
        [Ev.libwebsocket_write
          "HTTP/1.0 404 Not Found\r\nServer: libwebsockets\r\nContent-Type: text/html\r\n\r\n<h1>404 Not Found</h1>"
          96]) := by
  have hmin := env.service_buffer_min
  have h404 : spec_status_response 404 "" =
      "HTTP/1.0 404 Not Found\r\nServer: libwebsockets\r\nContent-Type: text/html\r\n\r\n<h1>404 Not Found</h1>" := by
    rw [← status_sprintf_eq]
    decide
  have h := return_http_status_eq env 404 none
    (by simp only [Option.getD, h404]; exact hmin)
    (by intro _; simp only [Option.getD, h404]; decide)
  simp only [Option.getD, h404] at h
  exact h

/-- C4 (amended). Status formatting: for every status code `c` and every body
(a null body counts as empty) such that the formatted response and its
terminating NUL fit `context->service_buffer`, and such that the response
contains no `printf` conversion in a build whose `lwsl_info` formats its
argument, `libwebsockets_return_http_status` makes exactly one HTTP write, of
the bytes
`HTTP/1.0 <c> <reason>\r\nServer: libwebsockets\r\nContent-Type: text/html\r\n\r\n<h1><c> <reason></h1><body>`
with `c` in decimal and with their byte count, and returns that write's
result; the reason is entry `c - 400` of the 18-entry 4xx table for
`400 ≤ c < 418`, entry `c - 500` of the 6-entry 5xx table for `500 ≤ c < 506`
and empty otherwise, the index being in bounds.  Code 404 with a null body
gives the `404 Not Found` response and code 599 the same shape with an empty
reason; both fit the buffer, which holds at least 97 bytes. -/
theorem status_formatting_in_buffer (env : Env) (c : Nat) (html_body : Option String)
    (hfit : (spec_status_response c (html_body.getD "")).utf8ByteSize <
      env.sizeof_service_buffer)
    (hlog : env.lwsl_info_enabled = true →
      format_takes_no_argument (spec_status_response c (html_body.getD "")).toList = true) :
    libwebsockets_return_http_status env c html_body =
      some (env.libwebsocket_write (spec_status_response c (html_body.getD ""))
              (spec_status_response c (html_body.getD "")).utf8ByteSize,
            [Ev.libwebsocket_write (spec_status_response c (html_body.getD ""))
              (spec_status_response c (html_body.getD "")).utf8ByteSize]) ∧
    err400.length = 18 ∧ err500.length = 6 ∧
    (400 ≤ c ∧ c < 418 → err400.get? (c - 400) = some (spec_reason c)) ∧
    (500 ≤ c ∧ c < 506 → err500.get? (c - 500) = some (spec_reason c)) ∧
    (¬ (400 ≤ c ∧ c < 418) → ¬ (500 ≤ c ∧ c < 506) → spec_reason c = "") ∧
    libwebsockets_return_http_status env 404 none =
      some (env.libwebsocket_write
        "HTTP/1.0 404 Not Found\r\nServer: libwebsockets\r\nContent-Type: text/html\r\n\r\n<h1>404 Not Found</h1>"
        96,
        [Ev.libwebsocket_write
          "HTTP/1.0 404 Not Found\r\nServer: libwebsockets\r\nContent-Type: text/html\r\n\r\n<h1>404 Not Found</h1>"
          96]) ∧
    libwebsockets_return_http_status env 599 none =
      some (env.libwebsocket_write
        "HTTP/1.0 599 \r\nServer: libwebsockets\r\nContent-Type: text/html\r\n\r\n<h1>599 </h1>"
        78,
        [Ev.libwebsocket_write
          "HTTP/1.0 599 \r\nServer: libwebsockets\r\nContent-Type: text/html\r\n\r\n<h1>599 </h1>"
          78]) := by
  have hmin := env.service_buffer_min
  have h599 : spec_status_response 599 "" =
      "HTTP/1.0 599 \r\nServer: libwebsockets\r\nContent-Type: text/html\r\n\r\n<h1>599 </h1>" := by
    rw [← status_sprintf_eq]
    decide
  refine ⟨return_http_status_eq env c html_body hfit hlog, rfl, rfl, ?_, ?_, ?_, ?_, ?_⟩
  · intro h
    have hlen : c - 400 < err400.length := by simp [err400]; omega
    simp only [spec_reason, h, and_self, if_true]
    rw [List.getD_eq_getElem?_getD, List.get?_eq_getElem?, List.getElem?_eq_getElem hlen]
    rfl
  · intro h
    have h4 : ¬ (400 ≤ c ∧ c < 418) := by omega
    have hlen : c - 500 < err500.length := by simp [err500]; omega
    simp only [spec_reason, h, h4, and_self, if_true, if_false]
    rw [List.getD_eq_getElem?_getD, List.get?_eq_getElem?, List.getElem?_eq_getElem hlen]
    rfl
  · intro h4 h5
    simp only [spec_reason, h4, h5, if_false]
  · exact return_http_status_404 env
  · have h := return_http_status_eq env 599 none
      (by simp only [Option.getD, h599]; exact lt_trans (by decide) hmin)
      (by intro _; simp only [Option.getD, h599]; decide)
    simp only [Option.getD, h599] at h
    exact h

/-- Witness for C4 (amended): code 403 with a short body in a 4096-byte
buffer, in a build whose `lwsl_info` formats its argument. -/
theorem status_formatting_in_buffer_witness :
    libwebsockets_return_http_status info_logging_env 403 (some "<p>no</p>") =
      some (105,
        [Ev.libwebsocket_write
          "HTTP/1.0 403 Forbidden\r\nServer: libwebsockets\r\nContent-Type: text/html\r\n\r\n<h1>403 Forbidden</h1><p>no</p>"
          105]) := by
  have h := (status_formatting_in_buffer info_logging_env 403 (some "<p>no</p>")
    (by rw [← status_sprintf_eq]; decide)
    (by intro _; rw [← status_sprintf_eq]; decide)).1
  rw [← status_sprintf_eq] at h
  exact h

/-- C4 (as stated) fails: with a 4096-byte `context->service_buffer` and a body
of 5000 bytes the `sprintf` writes past the buffer, so the call has no
defined result and no specified write; and in a build whose `lwsl_info`
formats its argument, the body `%s` makes `lwsl_info` read an argument that
was not passed. -/
theorem status_formatting_counterexample :
    sample_env.sizeof_service_buffer = 4096 ∧
    long_text.utf8ByteSize = 5000 ∧
    libwebsockets_return_http_status sample_env 404 (some long_text) = none ∧
    info_logging_env.lwsl_info_enabled = true ∧
    libwebsockets_return_http_status info_logging_env 404 (some "%s") = none := by
  refine ⟨rfl, long_text_size, ?_, rfl, by decide⟩
  apply return_http_status_overflow
  rw [long_text_size]
  decide

/-- C6. Missing file: when `lws_plat_open_file` returns `LWS_INVALID_FILE`,
`libwebsockets_serve_http_file` returns -1; after the open its only call is
the single write of `libwebsockets_return_http_status(404, NULL)`, whatever
that write returns; no 200 header is written, no fragment is served and
`wsi->state` is unchanged. -/
theorem missing_file (env : Env) (wsi : Wsi) (file content_type : String)
    (other_headers : Option String)
    (hopen : env.open_fd file = env.LWS_INVALID_FILE) :
    libwebsockets_serve_http_file env wsi file content_type other_headers =
      some ⟨-1,
        { wsi with http_fd := env.LWS_INVALID_FILE,
                   http_filelen := (env.open_filelen file).getD wsi.http_filelen },
        [Ev.lws_plat_open_file file,
         Ev.libwebsocket_write
           "HTTP/1.0 404 Not Found\r\nServer: libwebsockets\r\nContent-Type: text/html\r\n\r\n<h1>404 Not Found</h1>"
           96]⟩ ∧
    (libwebsockets_return_http_status env 404 none).map Prod.snd =
      some [Ev.libwebsocket_write
        "HTTP/1.0 404 Not Found\r\nServer: libwebsockets\r\nContent-Type: text/html\r\n\r\n<h1>404 Not Found</h1>"
        96] ∧
    (∀ r, libwebsockets_serve_http_file env wsi file content_type other_headers = some r →
      r.ret < 0 ∧ r.wsi.state = wsi.state ∧ r.trace.countP Ev.is_write = 1 ∧
      Ev.libwebsockets_serve_http_file_fragment Who.wsi ∉ r.trace) := by
  have h404 := return_http_status_404 env
  have hres : libwebsockets_serve_http_file env wsi file content_type other_headers =
      some ⟨-1,
        { wsi with http_fd := env.LWS_INVALID_FILE,
                   http_filelen := (env.open_filelen file).getD wsi.http_filelen },
        [Ev.lws_plat_open_file file,
         Ev.libwebsocket_write
           "HTTP/1.0 404 Not Found\r\nServer: libwebsockets\r\nContent-Type: text/html\r\n\r\n<h1>404 Not Found</h1>"
           96]⟩ := by
    unfold libwebsockets_serve_http_file
    simp only [hopen, if_true, HTTP_STATUS_NOT_FOUND, h404]
    rfl
  refine ⟨hres, by rw [h404]; rfl, ?_⟩
  intro r hr
  rw [hres] at hr
  cases hr
  refine ⟨?_, rfl, ?_, ?_⟩
  · show (-1 : Int) < 0
    decide
  · simp [List.countP_cons, Ev.is_write]
  · simp

/-- Witness for C6: the open of `missing.html` fails. -/
theorem missing_file_witness :
    libwebsockets_serve_http_file { sample_env with open_fd := fun _ => -1 } sample_wsi
      "missing.html" "text/html" none =
      some ⟨-1, { sample_wsi with http_fd := -1 },
        [Ev.lws_plat_open_file "missing.html",
         Ev.libwebsocket_write
           "HTTP/1.0 404 Not Found\r\nServer: libwebsockets\r\nContent-Type: text/html\r\n\r\n<h1>404 Not Found</h1>"
           96]⟩ :=
  (missing_file { sample_env with open_fd := fun _ => -1 } sample_wsi
    "missing.html" "text/html" none rfl).1

/-- The file helper, when the file opens and the header block with its NUL
fits the buffer: one write of the block, then the outcome by the write's
result. -/
theorem serve_http_file_in_buffer (env : Env) (wsi : Wsi) (file content_type : String)
    (other_headers : Option String) (len : Nat)
    (hopen : env.open_fd file ≠ env.LWS_INVALID_FILE)
    (hlen : env.open_filelen file = some len)
    (hfit : (file_header content_type other_headers len).utf8ByteSize <
      env.sizeof_service_buffer) :
    libwebsockets_serve_http_file env wsi file content_type other_headers =
      if env.libwebsocket_write (file_header content_type other_headers len)
          (file_header content_type other_headers len).utf8ByteSize ≠
          ((file_header content_type other_headers len).utf8ByteSize : Int) then
        some ⟨-1, { wsi with http_fd := env.open_fd file, http_filelen := len },
          [Ev.lws_plat_open_file file,
           Ev.libwebsocket_write (file_header content_type other_headers len)
             (file_header content_type other_headers len).utf8ByteSize]⟩
      else
        some ⟨env.libwebsockets_serve_http_file_fragment,
          { wsi with http_fd := env.open_fd file, http_filelen := len, http_filepos := 0,
                     state := WsiState.HTTP_ISSUING_FILE },
          [Ev.lws_plat_open_file file,
           Ev.libwebsocket_write (file_header content_type other_headers len)
             (file_header content_type other_headers len).utf8ByteSize,
           Ev.libwebsockets_serve_http_file_fragment Who.wsi]⟩ := by
  cases other_headers with
  | none =>
    have hs : (file_header content_type none len).utf8ByteSize =
        ("HTTP/1.0 200 OK\x0d\x0aServer: libwebsockets\x0d\x0a" ++
          "Content-Type: " ++ content_type ++ "\x0d\x0a").utf8ByteSize + 0 +
        ("Content-Length: " ++ fmt_u len ++ "\x0d\x0a\x0d\x0a").utf8ByteSize := by
      simp only [file_header, utf8ByteSize_append, Nat.add_zero]
    unfold libwebsockets_serve_http_file sprintf_at
    simp only [hopen, hlen, if_false, Option.getD]
    rw [if_pos (by omega)]
    simp only []
    rw [if_pos (by omega)]
    simp only [← hs]
    split_ifs <;> simp
  | some h =>
    have hs : (file_header content_type (some h) len).utf8ByteSize =
        ("HTTP/1.0 200 OK\x0d\x0aServer: libwebsockets\x0d\x0a" ++
          "Content-Type: " ++ content_type ++ "\x0d\x0a").utf8ByteSize + h.utf8ByteSize +
        ("Content-Length: " ++ fmt_u len ++ "\x0d\x0a\x0d\x0a").utf8ByteSize := by
      simp only [file_header, utf8ByteSize_append]
    unfold libwebsockets_serve_http_file sprintf_at memcpy_at
    simp only [hopen, hlen, if_false, Option.getD]
    rw [if_pos (by omega)]
    simp only []
    rw [if_pos (by omega)]
    simp only []
    rw [if_pos (by omega)]
    simp only [← hs]
    split_ifs <;> simp

/-- The file helper has no result when the extra headers alone are longer
than the buffer. -/
theorem serve_http_file_overflow (env : Env) (wsi : Wsi) (file content_type h : String)
    (hopen : env.open_fd file ≠ env.LWS_INVALID_FILE)
    (hbig : env.sizeof_service_buffer < h.utf8ByteSize) :
    libwebsockets_serve_http_file env wsi file content_type (some h) = none := by
  unfold libwebsockets_serve_http_file sprintf_at memcpy_at
  simp only [if_neg hopen]
  by_cases h1 : 0 + ("HTTP/1.0 200 OK\x0d\x0aServer: libwebsockets\x0d\x0a" ++
      "Content-Type: " ++ content_type ++ "\x0d\x0a").utf8ByteSize + 1 ≤
      env.sizeof_service_buffer
  · simp only [h1, if_true]
    rw [if_neg (by omega)]
  · simp only [h1, if_false]

/-- C7 (amended). File response headers: when the file opens with size `L`
and the header block with its terminating NUL fits `context->service_buffer`,
`libwebsockets_serve_http_file` makes one HTTP write of exactly
`HTTP/1.0 200 OK\r\nServer: libwebsockets\r\nContent-Type: T\r\n` followed by
the extra headers verbatim (nothing when null) and
`Content-Length: L\r\n\r\n` with `L` in decimal (`0` for an empty file).  If
the write returns exactly that byte count, the file position is set to 0, the
state becomes `HTTP_ISSUING_FILE` and the result of serving the first fragment
is returned; if it returns anything else the function returns -1 and the
state is unchanged. -/
theorem file_response_headers_in_buffer (env : Env) (wsi : Wsi)
    (file content_type : String) (other_headers : Option String) (len : Nat)
    (hopen : env.open_fd file ≠ env.LWS_INVALID_FILE)
    (hlen : env.open_filelen file = some len)
    (hfit : (spec_file_header content_type (other_headers.getD "") len).utf8ByteSize <
      env.sizeof_service_buffer) :
    (env.libwebsocket_write
        (spec_file_header content_type (other_headers.getD "") len)
        (spec_file_header content_type (other_headers.getD "") len).utf8ByteSize =
      ((spec_file_header content_type (other_headers.getD "") len).utf8ByteSize : Int) →
      libwebsockets_serve_http_file env wsi file content_type other_headers =
        some ⟨env.libwebsockets_serve_http_file_fragment,
          { wsi with http_fd := env.open_fd file, http_filelen := len, http_filepos := 0,
                     state := WsiState.HTTP_ISSUING_FILE },
          [Ev.lws_plat_open_file file,
           Ev.libwebsocket_write
             (spec_file_header content_type (other_headers.getD "") len)
             (spec_file_header content_type (other_headers.getD "") len).utf8ByteSize,
           Ev.libwebsockets_serve_http_file_fragment Who.wsi]⟩) ∧
    (env.libwebsocket_write
        (spec_file_header content_type (other_headers.getD "") len)
        (spec_file_header content_type (other_headers.getD "") len).utf8ByteSize ≠
      ((spec_file_header content_type (other_headers.getD "") len).utf8ByteSize : Int) →
      libwebsockets_serve_http_file env wsi file content_type other_headers =
        some ⟨-1,
          { wsi with http_fd := env.open_fd file, http_filelen := len },
          [Ev.lws_plat_open_file file,
           Ev.libwebsocket_write
             (spec_file_header content_type (other_headers.getD "") len)
             (spec_file_header content_type (other_headers.getD "") len).utf8ByteSize]⟩) ∧
    spec_file_header "text/html" "" 0 =
      "HTTP/1.0 200 OK\r\nServer: libwebsockets\r\nContent-Type: text/html\r\nContent-Length: 0\r\n\r\n" ∧
    spec_file_header "image/png" "Cache-Control: no-cache\r\n" 4294967296 =
      "HTTP/1.0 200 OK\r\nServer: libwebsockets\r\nContent-Type: image/png\r\nCache-Control: no-cache\r\nContent-Length: 4294967296\r\n\r\n" := by
  rw [← file_header_eq] at hfit
  have hres := serve_http_file_in_buffer env wsi file content_type other_headers len
    hopen hlen hfit
  rw [file_header_eq] at hres
  refine ⟨fun hw => ?_, fun hw => ?_, ?_, ?_⟩
  · rw [hres, if_neg (not_not.mpr hw)]
  · rw [hres, if_pos hw]
  · exact (file_header_eq "text/html" none 0).symm.trans (by decide)
  · exact (file_header_eq "image/png" (some "Cache-Control: no-cache\r\n") 4294967296).symm.trans
      (by decide)

/-- Witness for C7 (amended): an empty file that opens as descriptor 3, in a
4096-byte buffer; the write is complete. -/
theorem file_response_headers_in_buffer_witness :
    libwebsockets_serve_http_file sample_env sample_wsi "index.html" "text/html" none =
      some ⟨0,
        { sample_wsi with http_fd := 3, state := WsiState.HTTP_ISSUING_FILE },
        [Ev.lws_plat_open_file "index.html",
         Ev.libwebsocket_write
           "HTTP/1.0 200 OK\r\nServer: libwebsockets\r\nContent-Type: text/html\r\nContent-Length: 0\r\n\r\n"
           86,
         Ev.libwebsockets_serve_http_file_fragment Who.wsi]⟩ := by
  have h := (file_response_headers_in_buffer sample_env sample_wsi "index.html" "text/html"
    none 0 (by decide) rfl
    (by rw [← file_header_eq "text/html" none 0]; decide)).1 rfl
  rw [← file_header_eq "text/html" none 0] at h
  exact h

/-- C7 (as stated) fails: the file opens, `context->service_buffer` has 4096
bytes and the extra headers have 5000 bytes; the `memcpy` writes past the
buffer, so the call has no defined result and no specified write. -/
theorem file_response_headers_counterexample :
    sample_env.open_fd "index.html" ≠ sample_env.LWS_INVALID_FILE ∧
    sample_env.open_filelen "index.html" = some 0 ∧
    sample_env.sizeof_service_buffer = 4096 ∧
    long_text.utf8ByteSize = 5000 ∧
    libwebsockets_serve_http_file sample_env sample_wsi "index.html" "text/html"
      (some long_text) = none := by
  refine ⟨by decide, rfl, rfl, long_text_size, ?_⟩
  apply serve_http_file_overflow
  · decide
  · rw [long_text_size]
    decide

end Lws
